import Mathlib

/-! # Engine/Code/engine.cpp: a shallow embedding

The rendering core of `engine.cpp` (program registry, `FindVAO`, the uniform
buffer update, the render targets, the frame orchestration) as pure functions
over explicit state.

* Calls into OpenGL and GLFW are recorded, in order, in a call log
  (`GLState.calls`); what the driver answers (object names, statuses, queried
  locations, key states) is read from a `Driver` value that every theorem
  quantifies over.
* `float` values are elements of an arbitrary type `F`; the arithmetic and the
  glm functions on them are the fields of `Glm F`. Nothing is assumed about them.
  `Binary32` is the instance with the rounding of IEEE 754, for what depends on
  the rounding.
* `assert` aborts the process, and indexing a `std::vector` out of range, writing
  past a `char` array and reading past a local array are undefined: they are
  results `Except.error` of the embedding.
-/

namespace Engine

/-! ## OpenGL: enumerants, recorded calls, driver -/

/-- The OpenGL and GLFW enumerants that `engine.cpp` passes. -/
inductive GLenum where
  | GL_ARRAY_BUFFER | GL_ELEMENT_ARRAY_BUFFER | GL_UNIFORM_BUFFER
  | GL_FLOAT | GL_UNSIGNED_INT | GL_UNSIGNED_SHORT
  | GL_TRIANGLES | GL_FRAMEBUFFER | GL_TEXTURE_2D
  | GL_TEXTURE0 | GL_TEXTURE1 | GL_TEXTURE2 | GL_TEXTURE3
  | GL_CLIP_DISTANCE0 | GL_WRITE_ONLY
  | GL_VERTEX_SHADER | GL_FRAGMENT_SHADER
  | GL_COMPILE_STATUS | GL_LINK_STATUS | GL_ACTIVE_ATTRIBUTES
  | GLFW_KEY_W | GLFW_KEY_S | GLFW_KEY_A | GLFW_KEY_D
  | GL_RGBA16F | GL_RGBA8 | GL_RGBA | GL_UNSIGNED_BYTE
  | GL_DEPTH_COMPONENT24 | GL_DEPTH_COMPONENT
  | GL_TEXTURE_MIN_FILTER | GL_TEXTURE_MAG_FILTER
  | GL_TEXTURE_WRAP_R | GL_TEXTURE_WRAP_S | GL_TEXTURE_WRAP_T
  | GL_NEAREST | GL_CLAMP_TO_EDGE
  | GL_FRAMEBUFFER_COMPLETE | GL_FRAMEBUFFER_INCOMPLETE_ATTACHMENT
  | GL_FRAMEBUFFER_INCOMPLETE_MISSING_ATTACHMENT | GL_FRAMEBUFFER_UNSUPPORTED
  deriving DecidableEq, Repr

/-- Why a run of the embedded code stops without a result. -/
inductive Fault where
  /-- An `assert` of the source failed (the process aborts). -/
  | assertFailed
  /-- A `std::vector` was indexed past its end (undefined behaviour). -/
  | outOfRange
  /-- A fixed-size array was written or read past its end (undefined behaviour). -/
  | bufferOverflow
  deriving DecidableEq, Repr

/-- An object name (`GLuint`). -/
abbrev GLuint := Nat

/-- Embeds `glm::vec3` over the scalar type `F`. -/
structure Vec3 (F : Type) where
  x : F
  y : F
  z : F

/-- Embeds `glm::vec4` over the scalar type `F`. -/
structure Vec4 (F : Type) where
  x : F
  y : F
  z : F
  w : F

/-- Embeds `glm::mat4`: four columns, `m[i]` is `col i`. -/
structure Mat4 (F : Type) where
  col0 : Vec4 F
  col1 : Vec4 F
  col2 : Vec4 F
  col3 : Vec4 F

/-- Arithmetic on `float` and the glm functions that `engine.cpp` calls. They are
outside the repository and nothing is assumed about them. -/
structure Glm (F : Type) where
  /-- An integer converted to `float`. -/
  ofInt : Int → F
  /-- A `float` literal of the source, given by its decimal value. -/
  lit : ℚ → F
  add : F → F → F
  sub : F → F → F
  mul : F → F → F
  div : F → F → F
  neg : F → F
  radians : F → F
  perspective : F → F → F → F → Mat4 F
  lookAt : Vec3 F → Vec3 F → Vec3 F → Mat4 F
  matMul : Mat4 F → Mat4 F → Mat4 F
  normalize : Vec3 F → Vec3 F
  cross : Vec3 F → Vec3 F → Vec3 F

/-- A call that leaves `engine.cpp`: into OpenGL, GLFW, the `BufferManager`
map and unmap functions or the `ELOG` error log, with the arguments the source
passes. A call that returns a value is recorded with its arguments; the value
comes from the `Driver`. -/
inductive GLCall (F : Type) where
  | glGenVertexArrays (name : GLuint)
  | glBindVertexArray (array : GLuint)
  | glBindBuffer (target : GLenum) (buffer : GLuint)
  | glVertexAttribPointer (index size : Nat) (type : GLenum) (normalized : Bool)
      (stride pointer : Nat)
  | glEnableVertexAttribArray (index : Nat)
  | glBindFramebuffer (target : GLenum) (framebuffer : GLuint)
  | glDrawBuffers (n : Nat) (bufs : List GLuint)
  | glClearColor (red green blue alpha : F)
  | glClear (mask : Nat)
  | glViewport (x y width height : Int)
  | glEnable (cap : GLenum)
  | glDisable (cap : GLenum)
  | glUseProgram (program : GLuint)
  | glBindBufferRange (target : GLenum) (index : Nat) (buffer : GLuint) (offset size : Nat)
  | glGetUniformLocation (program : GLuint) (name : String)
  | glUniform4f (location : Int) (v0 v1 v2 v3 : F)
  | glUniform1i (location : Int) (v0 : Int)
  | glUniformMatrix4fv (location : Int) (count : Nat) (transpose : Bool) (value : Mat4 F)
  | glActiveTexture (texture : GLenum)
  | glBindTexture (target : GLenum) (texture : GLuint)
  | glDrawElements (mode : GLenum) (count : Nat) (type : GLenum) (indices : Nat)
  | glfwGetCurrentContext
  | glfwGetKey (key : GLenum)
  | MapBuffer (buffer : GLuint) (access : GLenum)
  | UnmapBuffer (buffer : GLuint)
  | glCreateShader (type : GLenum) (name : GLuint)
  | glShaderSource (shader : GLuint) (strings : List String)
  | glCompileShader (shader : GLuint)
  | glGetShaderiv (shader : GLuint) (pname : GLenum)
  | glGetShaderInfoLog (shader : GLuint)
  | glCreateProgram (name : GLuint)
  | glAttachShader (program shader : GLuint)
  | glLinkProgram (program : GLuint)
  | glGetProgramiv (program : GLuint) (pname : GLenum)
  | glGetProgramInfoLog (program : GLuint)
  | glDetachShader (program shader : GLuint)
  | glDeleteShader (shader : GLuint)
  | glGetActiveAttrib (program : GLuint) (index : Nat)
  | glGetAttribLocation (program : GLuint) (name : String)
  | ELOG (message : String)
  | glGenTextures (name : GLuint)
  | glTexImage2D (target : GLenum) (level : Int) (internalformat : GLenum) (width height : Int)
      (border : Int) (format type : GLenum)
  | glTexParameteri (target pname param : GLenum)
  | glGenFramebuffers (name : GLuint)
  | glFramebufferTexture (target : GLenum) (attachment : Nat) (texture : GLuint) (level : Int)
  | glCheckFramebufferStatus (target : GLenum)
  | FrameBufferClear (framebuffer : GLuint)

/-- One active vertex attribute as `glGetActiveAttrib` reports it. -/
structure ActiveAttrib where
  name : String
  size : Int
  type : Nat
  deriving DecidableEq, Repr

/-- What the world outside `engine.cpp` answers: the OpenGL driver, GLFW and the
platform's file functions. Every theorem holds for all of them, or says which
answers it assumes. -/
structure Driver where
  /-- The object name the driver hands out at its `k`-th `glGen*`/`glCreate*`
  call. -/
  genName : Nat → GLuint
  /-- `glGetUniformLocation`. -/
  uniformLocation : GLuint → String → Int
  /-- Whether `glfwGetKey` returns `GLFW_PRESS` for the key. -/
  keyPressed : GLenum → Bool
  /-- `GL_COMPILE_STATUS` of a shader object. -/
  shaderCompiled : GLuint → Bool
  /-- `glGetShaderInfoLog`. -/
  shaderInfoLog : GLuint → String
  /-- `GL_LINK_STATUS` of a program object. -/
  programLinked : GLuint → Bool
  /-- `glGetProgramInfoLog`. -/
  programInfoLog : GLuint → String
  /-- The active attributes of a program object, in the order of their index. -/
  activeAttributes : GLuint → List ActiveAttrib
  /-- `glGetAttribLocation`. -/
  attribLocation : GLuint → String → Int
  /-- `ReadTextFile`: the text of the file at a path. -/
  readTextFile : String → String
  /-- `GetFileLastWriteTimestamp`. -/
  fileLastWriteTimestamp : String → Nat
  /-- What `glCheckFramebufferStatus` returns while the framebuffer object is
  bound. -/
  framebufferStatus : GLuint → GLenum

/-- The process state outside `App`: how many object names the driver handed
out, and the calls made so far, oldest first. -/
structure GLState (F : Type) where
  issued : Nat
  calls : List (GLCall F)

/-- Record calls, in order, after those already made. -/
def GLState.emit {F : Type} (gl : GLState F) (cs : List (GLCall F)) : GLState F :=
  { gl with calls := gl.calls ++ cs }

/-! ## ModelLoadingFunctions.h -/

/-- Embeds `ModelLoader::VertexBufferAttribute`; the three fields are `u8`. -/
structure VertexBufferAttribute where
  location : Nat
  componentCount : Nat
  offset : Nat
  deriving DecidableEq, Repr

/-- Embeds `ModelLoader::VertexBufferLayout`; `stride` is `u8`. -/
structure VertexBufferLayout where
  attributes : List VertexBufferAttribute
  stride : Nat
  deriving DecidableEq, Repr

/-- Embeds `ModelLoader::VertexShaderAttribute`; both fields are `u8`. -/
structure VertexShaderAttribute where
  location : Nat
  componentCount : Nat
  deriving DecidableEq, Repr

/-- Embeds `ModelLoader::VertexShaderLayout`. -/
structure VertexShaderLayout where
  attributes : List VertexShaderAttribute
  deriving DecidableEq, Repr

/-- Embeds `ModelLoader::VAO`. -/
structure VAO where
  handle : GLuint
  programHandle : GLuint
  deriving DecidableEq, Repr

/-! ## The records of engine.h that engine.cpp reads and writes -/

/-- Embeds `Program`, with the fields `LoadProgram` fills. -/
structure Program where
  handle : GLuint
  filepath : String
  programName : String
  lastWriteTimestamp : Nat
  shaderLayout : VertexShaderLayout
  deriving DecidableEq, Repr

/-- Embeds `SubMesh`, with the fields `FindVAO` and `RenderGeometry` use. -/
structure SubMesh where
  vertexBufferLayout : VertexBufferLayout
  indices : List Nat
  vertexOffset : Nat
  indexOffset : Nat
  vaos : List VAO
  deriving DecidableEq, Repr

/-- Embeds `Mesh`. -/
structure Mesh where
  submeshes : List SubMesh
  vertexBufferHandle : GLuint
  indexBufferHandle : GLuint
  deriving DecidableEq, Repr

/-! ## FindVAO -/

/-- The first loop of `FindVAO`: the handle of the first entry of `vaos` made for
the program, or `0` (the initial `ReturnValue`) when there is none. -/
def lookupVAO (vaos : List VAO) (programHandle : GLuint) : GLuint :=
  match vaos with
  | [] => 0
  | v :: rest => if v.programHandle = programHandle then v.handle else lookupVAO rest programHandle

/-- The loop over the shader layout in `FindVAO`: for each attribute of the
program, the first attribute of the submesh layout with the same location is
configured and enabled; `assert(attributeWasLinked)` fails where there is none.
`offset` is a `u32` sum. -/
def linkAttributes {F : Type} (Submesh : SubMesh) :
    List VertexShaderAttribute → Except Fault (List (GLCall F))
  | [] => .ok []
  | shaderAttr :: rest =>
    match Submesh.vertexBufferLayout.attributes.find? (fun a => shaderAttr.location == a.location) with
    | none => .error .assertFailed
    | some a =>
      match linkAttributes Submesh rest with
      | .error e => .error e
      | .ok calls =>
        .ok (.glVertexAttribPointer a.location a.componentCount .GL_FLOAT false
              Submesh.vertexBufferLayout.stride ((a.offset + Submesh.vertexOffset) % 2 ^ 32)
            :: .glEnableVertexAttribArray a.location :: calls)

/-- Embeds `GLuint FindVAO(Mesh& mesh, u32 submeshIndex, const Program& program)`:
the handle returned, the mesh and the OpenGL state after the call. -/
def FindVAO {F : Type} (drv : Driver) (gl : GLState F) (mesh : Mesh) (submeshIndex : Nat)
    (program : Program) : Except Fault (GLuint × Mesh × GLState F) :=
  match mesh.submeshes[submeshIndex]? with
  | none => .error .outOfRange
  | some Submesh =>
    let ReturnValue := lookupVAO Submesh.vaos program.handle
    if ReturnValue = 0 then
      let ReturnValue := drv.genName gl.issued
      let gl1 : GLState F :=
        { issued := gl.issued + 1
          calls := gl.calls ++
            [.glGenVertexArrays ReturnValue, .glBindVertexArray ReturnValue,
             .glBindBuffer .GL_ARRAY_BUFFER mesh.vertexBufferHandle,
             .glBindBuffer .GL_ELEMENT_ARRAY_BUFFER mesh.indexBufferHandle] }
      match linkAttributes Submesh program.shaderLayout.attributes with
      | .error e => .error e
      | .ok calls =>
        let gl2 := gl1.emit (calls ++ [.glBindVertexArray 0])
        let vao : VAO := { handle := ReturnValue, programHandle := program.handle }
        let Submesh1 := { Submesh with vaos := Submesh.vaos ++ [vao] }
        .ok (ReturnValue, { mesh with submeshes := mesh.submeshes.set submeshIndex Submesh1 }, gl2)
    else
      .ok (ReturnValue, mesh, gl)

/-! ## App and the records it holds -/

/-- Embeds `Model`: the mesh and, per submesh, the material. -/
structure Model where
  meshIdx : Nat
  materialIdx : List Nat
  deriving DecidableEq, Repr

/-- Embeds `Material`, with the field `RenderGeometry` reads. -/
structure Material where
  albedoTextureIdx : Nat
  deriving DecidableEq, Repr

/-- Embeds `Texture`, with the field `RenderGeometry` reads. -/
structure Texture where
  handle : GLuint
  deriving DecidableEq, Repr

/-- Embeds `FrameBuffer`. -/
structure FrameBuffer where
  fbHandle : GLuint
  colorAttachment : List GLuint
  depthHandle : GLuint
  deriving DecidableEq, Repr

/-- Embeds `WaterBuffers`: the reflection and refraction targets. -/
structure WaterBuffers where
  fboReflection : FrameBuffer
  fboRefraction : FrameBuffer
  rtReflection : GLuint
  rtReflectionDepth : GLuint
  rtRefraction : GLuint
  rtRefractionDepth : GLuint
  deriving DecidableEq, Repr

/-- Embeds `Mode`; `other` is a value the `switch` of `Render` sends to `default`. -/
inductive Mode where
  | Mode_Forward
  | Mode_Deferred
  | other
  deriving DecidableEq, Repr

/-- Embeds `LightType`. -/
inductive LightType where
  | LightType_Directional
  | LightType_Point
  deriving DecidableEq, Repr

/-- Embeds `Light`. -/
structure Light (F : Type) where
  type : LightType
  color : Vec3 F
  direction : Vec3 F
  position : Vec3 F

/-- Embeds `Entity`. -/
structure Entity (F : Type) where
  worldMatrix : Mat4 F
  modelIndex : Nat
  localParamsOffset : Nat
  localParamsSize : Nat

/-- The camera `App::sceneCam`, with the fields engine.cpp uses. -/
structure Camera (F : Type) where
  cameraPos : Vec3 F
  cameraFront : Vec3 F
  cameraUp : Vec3 F
  pitch : F

/-- A value written into the uniform buffer. -/
inductive Datum (F : Type) where
  | vec3 (v : Vec3 F)
  | uint (n : Nat)
  | lightType (t : LightType)
  | mat4 (m : Mat4 F)

/-- Modelled from the spec: the `Buffer` of `BufferManager`, whose declaration is
not in engine.cpp: "a single GPU-mapped memory region with a monotonically
increasing write cursor (head)". `writes` lists what was stored through the
mapped pointer, oldest first, each value with the offset it was stored at. The
cursor is a natural number: the width of `head` is not visible. -/
structure Buffer (F : Type) where
  handle : GLuint
  head : Nat
  writes : List (Nat × Datum F)

/-- Embeds `ivec2 displaySize`. -/
structure IVec2 where
  x : Int
  y : Int
  deriving DecidableEq, Repr

/-- Embeds `App`, with the fields that engine.cpp reads or writes in the functions
embedded here. `maxUniformBufferSize` and `uniformBlockAlignment` are the
`GLint` values the driver reported to `Init`. -/
structure App (F : Type) where
  deltaTime : F
  displaySize : IVec2
  programs : List Program
  textures : List Texture
  materials : List Material
  meshes : List Mesh
  models : List Model
  renderToBackBufferShader : Nat
  renderToFrameBufferShader : Nat
  framebufferToQuadShader : Nat
  waterShader : Nat
  texturedMeshProgram_uTexture : Int
  vao : GLuint
  waterVAO : GLuint
  mode : Mode
  maxUniformBufferSize : Nat
  uniformBlockAlignment : Nat
  localUniformBuffer : Buffer F
  globalParamsOffset : Nat
  globalParamsSize : Nat
  entities : List (Entity F)
  lights : List (Light F)
  sceneCam : Camera F
  projection : Mat4 F
  view : Mat4 F
  WaterWorldMatrix : Mat4 F
  waterBuffers : WaterBuffers
  deferredFrameBuffer : FrameBuffer

/-! ## BufferManager (not in engine.cpp) -/

/-- Modelled from the spec: the `Push*` macros of `BufferManager`, which are not
in engine.cpp. The spec gives the order and the size of the values written
("camera position vector, light count (unsigned integer), ...") and not whether a
macro pads the cursor before it writes, so the alignment each macro applies
first is a parameter. -/
structure PushLayout where
  vec3Align : Nat
  uintAlign : Nat
  mat4Align : Nat
  deriving DecidableEq, Repr

/-- No padding before any value: a value is written where the cursor is. -/
def PushLayout.packed : PushLayout := { vec3Align := 1, uintAlign := 1, mat4Align := 1 }

/-- Vectors and matrices padded to `sizeof(vec4)`, unsigned integers to 4 bytes:
the std140 rules for these types. -/
def PushLayout.std140 : PushLayout := { vec3Align := 16, uintAlign := 4, mat4Align := 16 }

/-- The alignments are positive. -/
def PushLayout.Valid (lay : PushLayout) : Prop :=
  0 < lay.vec3Align ∧ 0 < lay.uintAlign ∧ 0 < lay.mat4Align

instance (lay : PushLayout) : Decidable lay.Valid := by
  unfold PushLayout.Valid
  exact inferInstance

/-- Modelled from the spec: `Align`, "aligned up to" a multiple of `alignment`. -/
def Align (value alignment : Nat) : Nat :=
  (value + alignment - 1) / alignment * alignment

/-- Modelled from the spec: `BufferManager::AlignHead`, which moves the cursor
up to the next multiple of `alignment`. -/
def AlignHead {F : Type} (buffer : Buffer F) (alignment : Nat) : Buffer F :=
  { buffer with head := Align buffer.head alignment }

/-- Modelled from the spec: what every `Push*` macro does: pad the cursor to
`alignment`, store the value there, advance the cursor by its `size`. -/
def PushAlignedData {F : Type} (buffer : Buffer F) (data : Datum F) (size alignment : Nat) :
    Buffer F :=
  let buffer1 := AlignHead buffer alignment
  { buffer1 with head := buffer1.head + size, writes := buffer1.writes ++ [(buffer1.head, data)] }

/-- Embeds `sizeof(vec3)`: three `float`. -/
def sizeofVec3 : Nat := 12

/-- Embeds `sizeof(u32)`. -/
def sizeofUInt : Nat := 4

/-- Embeds `sizeof(vec4)`: four `float`. -/
def sizeofVec4 : Nat := 16

/-- Embeds `sizeof(mat4)`: sixteen `float`. -/
def sizeofMat4 : Nat := 64

/-- The size of a light record `{type, color, direction, position}`: an unsigned
integer and three `vec3`. -/
def sizeofLightRecord : Nat := sizeofUInt + 3 * sizeofVec3

/-- The size of a light record under the std140 padding: the type at byte 0, the
three vectors at bytes 16, 32 and 48, the last of them ending at byte 60. -/
def sizeofLightRecordStd140 : Nat := 3 * sizeofVec4 + sizeofVec3

/-- Modelled from the spec: `PushVec3`. -/
def PushVec3 {F : Type} (lay : PushLayout) (buffer : Buffer F) (value : Vec3 F) : Buffer F :=
  PushAlignedData buffer (.vec3 value) sizeofVec3 lay.vec3Align

/-- Modelled from the spec: `PushUInt`. -/
def PushUInt {F : Type} (lay : PushLayout) (buffer : Buffer F) (value : Datum F) : Buffer F :=
  PushAlignedData buffer value sizeofUInt lay.uintAlign

/-- Modelled from the spec: `PushMat4`. -/
def PushMat4 {F : Type} (lay : PushLayout) (buffer : Buffer F) (value : Mat4 F) : Buffer F :=
  PushAlignedData buffer (.mat4 value) sizeofMat4 lay.mat4Align

/-- Modelled from the spec: `BufferManager::MapBuffer`, the allocator's `Reset`:
"rewinds the write cursor to zero and maps the underlying memory for writing". -/
def MapBuffer {F : Type} (gl : GLState F) (buffer : Buffer F) (access : GLenum) :
    Buffer F × GLState F :=
  ({ buffer with head := 0 }, gl.emit [.MapBuffer buffer.handle access])

/-- Modelled from the spec: `BufferManager::UnmapBuffer`, the allocator's
`Finish`, which unmaps the memory. -/
def UnmapBuffer {F : Type} (gl : GLState F) (buffer : Buffer F) : GLState F :=
  gl.emit [.UnmapBuffer buffer.handle]

/-- Modelled from the spec: the macro `BINDING(b)`, the "fixed slot" `b`. -/
def BINDING (b : Nat) : Nat := b

/-! ## App::processInput and App::UpdateEntityBuffer -/

/-- Embeds `vec3 + vec3` of glm: component by component. -/
def Vec3.add {F : Type} (g : Glm F) (a b : Vec3 F) : Vec3 F :=
  { x := g.add a.x b.x, y := g.add a.y b.y, z := g.add a.z b.z }

/-- Embeds `vec3 - vec3` of glm. -/
def Vec3.sub {F : Type} (g : Glm F) (a b : Vec3 F) : Vec3 F :=
  { x := g.sub a.x b.x, y := g.sub a.y b.y, z := g.sub a.z b.z }

/-- Embeds `float * vec3` of glm. -/
def Vec3.scaleLeft {F : Type} (g : Glm F) (s : F) (v : Vec3 F) : Vec3 F :=
  { x := g.mul s v.x, y := g.mul s v.y, z := g.mul s v.z }

/-- Embeds `vec3 * float` of glm. -/
def Vec3.scaleRight {F : Type} (g : Glm F) (v : Vec3 F) (s : F) : Vec3 F :=
  { x := g.mul v.x s, y := g.mul v.y s, z := g.mul v.z s }

/-- Embeds `App::processInput`: the four keys are read in the order W, S, A, D and each
pressed key moves `cameraPos`. -/
def processInput {F : Type} (g : Glm F) (drv : Driver) (gl : GLState F) (app : App F) :
    App F × GLState F :=
  let cameraSpeed := g.mul (g.lit 5) app.deltaTime
  let cam := app.sceneCam
  let pos0 := cam.cameraPos
  let pos1 := if drv.keyPressed .GLFW_KEY_W then
      Vec3.add g pos0 (Vec3.scaleLeft g cameraSpeed cam.cameraFront) else pos0
  let pos2 := if drv.keyPressed .GLFW_KEY_S then
      Vec3.sub g pos1 (Vec3.scaleLeft g cameraSpeed cam.cameraFront) else pos1
  let pos3 := if drv.keyPressed .GLFW_KEY_A then
      Vec3.sub g pos2 (Vec3.scaleRight g (g.normalize (g.cross cam.cameraFront cam.cameraUp)) cameraSpeed)
    else pos2
  let pos4 := if drv.keyPressed .GLFW_KEY_D then
      Vec3.add g pos3 (Vec3.scaleRight g (g.normalize (g.cross cam.cameraFront cam.cameraUp)) cameraSpeed)
    else pos3
  ({ app with sceneCam := { cam with cameraPos := pos4 } },
   gl.emit [.glfwGetKey .GLFW_KEY_W, .glfwGetKey .GLFW_KEY_S, .glfwGetKey .GLFW_KEY_A,
     .glfwGetKey .GLFW_KEY_D])

/-- The loop over `lights` in `UpdateEntityBuffer`: each record starts at a
cursor aligned to `sizeof(vec4)`. -/
def pushLights {F : Type} (lay : PushLayout) : Buffer F → List (Light F) → Buffer F
  | buffer, [] => buffer
  | buffer, light :: rest =>
    let b0 := AlignHead buffer sizeofVec4
    let b1 := PushUInt lay b0 (.lightType light.type)
    let b2 := PushVec3 lay b1 light.color
    let b3 := PushVec3 lay b2 light.direction
    let b4 := PushVec3 lay b3 light.position
    pushLights lay b4 rest

/-- The loop over `entities` in `UpdateEntityBuffer`: the buffer after the loop
and the entities with their recorded offset and size. -/
def pushEntities {F : Type} (g : Glm F) (lay : PushLayout) (uniformBlockAlignment : Nat)
    (projection view : Mat4 F) : Buffer F → List (Entity F) → Buffer F × List (Entity F)
  | buffer, [] => (buffer, [])
  | buffer, it :: rest =>
    let world := it.worldMatrix
    let WVP := g.matMul (g.matMul projection view) world
    let b0 := AlignHead buffer uniformBlockAlignment
    let localParamsOffset := b0.head
    let b1 := PushMat4 lay b0 world
    let b2 := PushMat4 lay b1 WVP
    let it1 := { it with localParamsOffset := localParamsOffset,
                         localParamsSize := b2.head - localParamsOffset }
    let r := pushEntities g lay uniformBlockAlignment projection view b2 rest
    (r.1, it1 :: r.2)

/-- Embeds `void App::UpdateEntityBuffer(bool mouse)`. -/
def UpdateEntityBuffer {F : Type} (g : Glm F) (drv : Driver) (lay : PushLayout)
    (gl : GLState F) (app : App F) (mouse : Bool) : App F × GLState F :=
  let aspectRatio := g.div (g.ofInt app.displaySize.x) (g.ofInt app.displaySize.y)
  let znear := g.lit (1 / 10)
  let zfar := g.lit 1000
  let app1 := { app with projection := g.perspective (g.radians (g.lit 60)) aspectRatio znear zfar }
  let (app2, gl2) :=
    if mouse then processInput g drv (gl.emit [.glfwGetCurrentContext]) app1 else (app1, gl)
  let app3 := { app2 with
    view := g.lookAt app2.sceneCam.cameraPos
      (Vec3.add g app2.sceneCam.cameraPos app2.sceneCam.cameraFront) app2.sceneCam.cameraUp }
  let (buf0, gl3) := MapBuffer gl2 app3.localUniformBuffer .GL_WRITE_ONLY
  let globalParamsOffset := buf0.head
  let buf1 := PushVec3 lay buf0 app3.sceneCam.cameraPos
  let buf2 := PushUInt lay buf1 (.uint (app3.lights.length % 2 ^ 32))
  let buf3 := pushLights lay buf2 app3.lights
  let globalParamsSize := buf3.head - globalParamsOffset
  let r := pushEntities g lay app3.uniformBlockAlignment app3.projection app3.view buf3 app3.entities
  ({ app3 with
      localUniformBuffer := r.1
      globalParamsOffset := globalParamsOffset
      globalParamsSize := globalParamsSize
      entities := r.2 },
   UnmapBuffer gl3 r.1)

/-! ## RenderGeometry, RenderWater and Render -/

/-- Embeds `v[i]` on a `std::vector`: past the end it is undefined. -/
def index {α : Type} (v : List α) (i : Nat) : Except Fault α :=
  match v[i]? with
  | some a => .ok a
  | none => .error .outOfRange

/-- Embeds `GL_COLOR_BUFFER_BIT`. -/
def GL_COLOR_BUFFER_BIT : Nat := 0x4000

/-- Embeds `GL_DEPTH_BUFFER_BIT`. -/
def GL_DEPTH_BUFFER_BIT : Nat := 0x100

/-- Embeds `float App::GetHeight(glm::mat4 transformMat)`: the `y` of the fourth column. -/
def GetHeight {F : Type} (transformMat : Mat4 F) : F :=
  let pos : Vec3 F := { x := transformMat.col3.x, y := transformMat.col3.y, z := transformMat.col3.z }
  let D := pos.y
  D

/-- The loop over the submeshes of one entity's mesh in `RenderGeometry`; the
list holds the values of `i` still to do. `mesh` is the entry of `app.meshes` the
loop works on (a reference in the source). -/
def drawSubmeshes {F : Type} (drv : Driver) (app : App F) (aBindedProgram : Program)
    (model : Model) : List Nat → Mesh → GLState F → Except Fault (Mesh × GLState F)
  | [], mesh, gl => .ok (mesh, gl)
  | i :: rest, mesh, gl => do
    let (vao, mesh1, gl1) ← FindVAO drv gl mesh i aBindedProgram
    let subMeshmaterialIdx ← index model.materialIdx i
    let subMeshMaterial ← index app.materials subMeshmaterialIdx
    let texture ← index app.textures subMeshMaterial.albedoTextureIdx
    let submesh ← index mesh1.submeshes i
    drawSubmeshes drv app aBindedProgram model rest mesh1
      (gl1.emit
        [.glBindVertexArray vao,
         .glActiveTexture .GL_TEXTURE0,
         .glBindTexture .GL_TEXTURE_2D texture.handle,
         .glUniform1i app.texturedMeshProgram_uTexture 0,
         .glDrawElements .GL_TRIANGLES submesh.indices.length .GL_UNSIGNED_INT submesh.indexOffset])

/-- The loop over the entities in `RenderGeometry`; the list holds the entities
still to draw. -/
def drawEntities {F : Type} (drv : Driver) (aBindedProgram : Program) :
    List (Entity F) → App F → GLState F → Except Fault (App F × GLState F)
  | [], app, gl => .ok (app, gl)
  | it :: rest, app, gl => do
    let gl1 := gl.emit
      [.glBindBufferRange .GL_UNIFORM_BUFFER (BINDING 1) app.localUniformBuffer.handle
        it.localParamsOffset it.localParamsSize]
    let model ← index app.models it.modelIndex
    let mesh ← index app.meshes model.meshIdx
    let (mesh1, gl2) ←
      drawSubmeshes drv app aBindedProgram model (List.range mesh.submeshes.length) mesh gl1
    drawEntities drv aBindedProgram rest { app with meshes := app.meshes.set model.meshIdx mesh1 } gl2

/-- Embeds `void App::RenderGeometry(const Program& aBindedProgram, vec4 clippingPlane)`. -/
def RenderGeometry {F : Type} (drv : Driver) (gl : GLState F) (app : App F)
    (aBindedProgram : Program) (clippingPlane : Vec4 F) : Except Fault (App F × GLState F) :=
  let planeLoc := drv.uniformLocation aBindedProgram.handle "plane"
  let gl1 := gl.emit
    [.glBindBufferRange .GL_UNIFORM_BUFFER (BINDING 0) app.localUniformBuffer.handle
      app.globalParamsOffset app.globalParamsSize,
     .glGetUniformLocation aBindedProgram.handle "plane",
     .glUniform4f planeLoc clippingPlane.x clippingPlane.y clippingPlane.z clippingPlane.w]
  drawEntities drv aBindedProgram app.entities app gl1

/-- Embeds a call `glDrawBuffers(n, bufs)` whose second argument is a local
array: OpenGL reads `n` elements of `bufs`, and a read past the end of the array
is undefined. -/
def glDrawBuffers {F : Type} (gl : GLState F) (n : Nat) (bufs : List GLuint) :
    Except Fault (GLState F) :=
  if n ≤ bufs.length then .ok (gl.emit [.glDrawBuffers n bufs]) else .error .bufferOverflow

/-- The `Mode_Deferred` case of `Render`, section "Water Reflection FBO": the
camera is moved below the water, the entities are drawn into the reflection
target, the camera is moved back. `DeferredProgram`, which the later sections
use, is returned with the state. -/
def RenderDeferredReflection {F : Type} (g : Glm F) (drv : Driver) (lay : PushLayout)
    (gl : GLState F) (app : App F) : Except Fault (Program × App F × GLState F) := do
  let gl := gl.emit
    [.glEnable .GL_CLIP_DISTANCE0,
     .glBindFramebuffer .GL_FRAMEBUFFER app.waterBuffers.fboReflection.fbHandle]
  let reflectionBuffers := [app.waterBuffers.fboReflection.fbHandle]
  let gl ← glDrawBuffers gl app.waterBuffers.fboReflection.colorAttachment.length
    reflectionBuffers
  let gl := gl.emit
    [.glClearColor (g.lit 0) (g.lit 0) (g.lit 0) (g.lit 0),
     .glClear (GL_COLOR_BUFFER_BIT ||| GL_DEPTH_BUFFER_BIT)]
  -- Move camera down water before rendering
  let distance := g.mul (g.ofInt 2) (g.sub app.sceneCam.cameraPos.y (GetHeight app.WaterWorldMatrix))
  let app := { app with sceneCam := { app.sceneCam with
    cameraPos := { app.sceneCam.cameraPos with y := g.sub app.sceneCam.cameraPos.y distance } } }
  let app := { app with sceneCam := { app.sceneCam with pitch := g.neg app.sceneCam.pitch } }
  let DeferredProgram ← index app.programs app.renderToFrameBufferShader
  let gl := gl.emit [.glUseProgram DeferredProgram.handle]
  let r := UpdateEntityBuffer g drv lay gl app false
  let (app, gl) ← RenderGeometry drv r.2 r.1 DeferredProgram
    { x := g.ofInt 0, y := g.ofInt 1, z := g.ofInt 0, w := g.neg (GetHeight r.1.WaterWorldMatrix) }
  -- Return camera to original pos
  let app := { app with sceneCam := { app.sceneCam with
    cameraPos := { app.sceneCam.cameraPos with y := g.add app.sceneCam.cameraPos.y distance } } }
  let app := { app with sceneCam := { app.sceneCam with pitch := g.neg app.sceneCam.pitch } }
  let gl := gl.emit [.glUseProgram 0, .glBindFramebuffer .GL_FRAMEBUFFER 0]
  pure (DeferredProgram, app, gl)

/-- Embeds `char versionString[]`. -/
def versionString : String := "#version 430\n"

/-- Embeds `char vertexShaderDefine[]`. -/
def vertexShaderDefine : String := "#define VERTEX\n"

/-- Embeds `char fragmentShaderDefine[]`. -/
def fragmentShaderDefine : String := "#define FRAGMENT\n"

/-- Embeds `char shaderNameDefine[128]; sprintf(shaderNameDefine, "#define %s\n", shaderName);`
The text has the 8 bytes of `#define `, the bytes of the name, the line feed and
the terminating NUL; `sprintf` does not check that they fit the 128 bytes.
`shaderName` stands for the bytes of the C string before its NUL. -/
def sprintfShaderNameDefine (shaderName : String) : Except Fault String :=
  if shaderName.utf8ByteSize + 10 ≤ 128 then .ok ("#define " ++ shaderName ++ "\n")
  else .error .bufferOverflow

/-- Embeds `GLuint CreateProgramFromSource(String programSource, const char* shaderName)`.
`glShaderSource` is recorded with the four strings it is given, whose lengths the
source passes along; the calls are listed in the order the source makes them. -/
def CreateProgramFromSource {F : Type} (drv : Driver) (gl : GLState F) (programSource : String)
    (shaderName : String) : Except Fault (GLuint × GLState F) := do
  let shaderNameDefine ← sprintfShaderNameDefine shaderName
  let vertexShaderSource := [versionString, shaderNameDefine, vertexShaderDefine, programSource]
  let fragmentShaderSource := [versionString, shaderNameDefine, fragmentShaderDefine, programSource]
  let vshader := drv.genName gl.issued
  let fshader := drv.genName (gl.issued + 1)
  let programHandle := drv.genName (gl.issued + 2)
  let calls : List (GLCall F) :=
    [.glCreateShader .GL_VERTEX_SHADER vshader,
     .glShaderSource vshader vertexShaderSource,
     .glCompileShader vshader,
     .glGetShaderiv vshader .GL_COMPILE_STATUS]
    ++ (if drv.shaderCompiled vshader then [] else
      [.glGetShaderInfoLog vshader,
       .ELOG ("glCompileShader() failed with vertex shader " ++ shaderName ++
         "\nReported message:\n" ++ drv.shaderInfoLog vshader ++ "\n")])
    ++ [.glCreateShader .GL_FRAGMENT_SHADER fshader,
     .glShaderSource fshader fragmentShaderSource,
     .glCompileShader fshader,
     .glGetShaderiv fshader .GL_COMPILE_STATUS]
    ++ (if drv.shaderCompiled fshader then [] else
      [.glGetShaderInfoLog fshader,
       .ELOG ("glCompileShader() failed with fragment shader " ++ shaderName ++
         "\nReported message:\n" ++ drv.shaderInfoLog fshader ++ "\n")])
    ++ [.glCreateProgram programHandle,
     .glAttachShader programHandle vshader,
     .glAttachShader programHandle fshader,
     .glLinkProgram programHandle,
     .glGetProgramiv programHandle .GL_LINK_STATUS]
    ++ (if drv.programLinked programHandle then [] else
      [.glGetProgramInfoLog programHandle,
       .ELOG ("glLinkProgram() failed with program " ++ shaderName ++
         "\nReported message:\n" ++ drv.programInfoLog programHandle ++ "\n")])
    ++ [.glUseProgram 0,
     .glDetachShader programHandle vshader,
     .glDetachShader programHandle fshader,
     .glDeleteShader vshader,
     .glDeleteShader fshader]
  pure (programHandle, { issued := gl.issued + 3, calls := gl.calls ++ calls })

/-- The conversion of a `GLint` to `u8`. -/
def toU8 (i : Int) : Nat := (i % 256).toNat

/-- The loop over the active attributes in `LoadProgram`: the calls made and the
attributes pushed, for the attributes from index `i` on. -/
def introspectAttributes {F : Type} (drv : Driver) (handle : GLuint) :
    Nat → List ActiveAttrib → List (GLCall F) × List VertexShaderAttribute
  | _, [] => ([], [])
  | i, attrib :: rest =>
    let location := toU8 (drv.attribLocation handle attrib.name)
    let r := introspectAttributes drv handle (i + 1) rest
    (.glGetActiveAttrib handle i :: .glGetAttribLocation handle attrib.name :: r.1,
     { location := location, componentCount := toU8 attrib.size } :: r.2)

/-- Embeds `u32 LoadProgram(App* app, const char* filepath, const char* programName)`:
the index returned, the application and the process state after the call. -/
def LoadProgram {F : Type} (drv : Driver) (gl : GLState F) (app : App F) (filepath : String)
    (programName : String) : Except Fault (Nat × App F × GLState F) := do
  let programSource := drv.readTextFile filepath
  let (handle, gl) ← CreateProgramFromSource drv gl programSource programName
  let gl := gl.emit [.glGetProgramiv handle .GL_ACTIVE_ATTRIBUTES]
  let r := introspectAttributes (F := F) drv handle 0 (drv.activeAttributes handle)
  let program : Program :=
    { handle := handle
      filepath := filepath
      programName := programName
      lastWriteTimestamp := drv.fileLastWriteTimestamp filepath
      shaderLayout := { attributes := r.2 } }
  let app := { app with programs := app.programs ++ [program] }
  pure ((app.programs.length - 1) % 2 ^ 32, app, gl.emit r.1)

/-! ## CreateTexture, ConfigureFrameBuffer and ConfigureWaterBuffer -/

/-- Embeds `GL_COLOR_ATTACHMENT0`; the source adds the index of the attachment to it. -/
def GL_COLOR_ATTACHMENT0 : Nat := 0x8CE0

/-- Embeds `GL_DEPTH_ATTACHMENT`. -/
def GL_DEPTH_ATTACHMENT : Nat := 0x8D00

/-- Modelled from the spec: the default argument of `App::CreateTexture`, which
is in its declaration in engine.h and not in engine.cpp. The call `CreateTexture()`
makes the attachment the spec calls "8-bit-per-channel", the calls
`CreateTexture(true)` the three "16-bit-float" ones. -/
def CreateTexture_default : Bool := false

/-- Embeds `const GLuint App::CreateTexture(const bool isFloatingPoint)`: the name of the
texture and the process state after the call. -/
def CreateTexture {F : Type} (drv : Driver) (gl : GLState F) (app : App F)
    (isFloatingPoint : Bool) : GLuint × GLState F :=
  let textureHandle := drv.genName gl.issued
  let internalFormat : GLenum := if isFloatingPoint then .GL_RGBA16F else .GL_RGBA8
  let format : GLenum := .GL_RGBA
  let dataType : GLenum := if isFloatingPoint then .GL_FLOAT else .GL_UNSIGNED_BYTE
  (textureHandle,
   { issued := gl.issued + 1
     calls := gl.calls ++
      [.glGenTextures textureHandle,
       .glBindTexture .GL_TEXTURE_2D textureHandle,
       .glTexImage2D .GL_TEXTURE_2D 0 internalFormat app.displaySize.x app.displaySize.y 0
         format dataType,
       .glTexParameteri .GL_TEXTURE_2D .GL_TEXTURE_MIN_FILTER .GL_NEAREST,
       .glTexParameteri .GL_TEXTURE_2D .GL_TEXTURE_MAG_FILTER .GL_NEAREST,
       .glTexParameteri .GL_TEXTURE_2D .GL_TEXTURE_WRAP_R .GL_CLAMP_TO_EDGE,
       .glTexParameteri .GL_TEXTURE_2D .GL_TEXTURE_WRAP_S .GL_CLAMP_TO_EDGE,
       .glTexParameteri .GL_TEXTURE_2D .GL_TEXTURE_WRAP_T .GL_CLAMP_TO_EDGE,
       .glBindTexture .GL_TEXTURE_2D 0] })

/-- Modelled from the spec: `FrameBuffer::Clear`, which is in engine.h and not in
engine.cpp. The targets are made of "a new framebuffer object" with the textures
allocated by the call, so nothing of the old list of colour attachments stays.
What it does to the two handles does not matter: both callers overwrite them. -/
def FrameBuffer.Clear {F : Type} (gl : GLState F) (fb : FrameBuffer) :
    FrameBuffer × GLState F :=
  ({ fb with colorAttachment := [] }, gl.emit [.FrameBufferClear fb.fbHandle])

/-- The depth texture that both `ConfigureFrameBuffer` and `ConfigureWaterBuffer`
make: the same eight calls in both. -/
def depthTextureCalls {F : Type} (app : App F) (depthHandle : GLuint) : List (GLCall F) :=
  [.glGenTextures depthHandle,
   .glBindTexture .GL_TEXTURE_2D depthHandle,
   .glTexImage2D .GL_TEXTURE_2D 0 .GL_DEPTH_COMPONENT24 app.displaySize.x app.displaySize.y 0
     .GL_DEPTH_COMPONENT .GL_FLOAT,
   .glTexParameteri .GL_TEXTURE_2D .GL_TEXTURE_MIN_FILTER .GL_NEAREST,
   .glTexParameteri .GL_TEXTURE_2D .GL_TEXTURE_MAG_FILTER .GL_NEAREST,
   .glTexParameteri .GL_TEXTURE_2D .GL_TEXTURE_WRAP_R .GL_CLAMP_TO_EDGE,
   .glTexParameteri .GL_TEXTURE_2D .GL_TEXTURE_WRAP_S .GL_CLAMP_TO_EDGE,
   .glTexParameteri .GL_TEXTURE_2D .GL_TEXTURE_WRAP_T .GL_CLAMP_TO_EDGE,
   .glBindTexture .GL_TEXTURE_2D 0]

/-- The loop over `colorAttachment` in both functions, from index `i` on: the
calls that attach the textures, and the `drawBuffers` it collects. -/
def attachColors {F : Type} : Nat → List GLuint → List (GLCall F) × List GLuint
  | _, [] => ([], [])
  | i, texture :: rest =>
    let position := GL_COLOR_ATTACHMENT0 + i
    let r := attachColors (F := F) (i + 1) rest
    (.glFramebufferTexture .GL_FRAMEBUFFER position texture 0 :: r.1, position :: r.2)

/-- The end of both functions, from `glGenFramebuffers` on: the framebuffer
object is made and bound, the textures are attached, the draw buffers are set,
the status is checked and the framebuffer is unbound. The branch for a status
other than `GL_FRAMEBUFFER_COMPLETE` is `int i = 0;`: it makes no call. -/
def attachAndCheck {F : Type} (drv : Driver) (gl : GLState F) (fb : FrameBuffer) :
    FrameBuffer × GLState F :=
  let fbHandle := drv.genName gl.issued
  let fb := { fb with fbHandle := fbHandle }
  let r := attachColors (F := F) 0 fb.colorAttachment
  let drawBuffers := r.2
  let gl : GLState F :=
    { issued := gl.issued + 1
      calls := gl.calls ++
        [.glGenFramebuffers fbHandle, .glBindFramebuffer .GL_FRAMEBUFFER fbHandle]
        ++ r.1 ++
        [.glFramebufferTexture .GL_FRAMEBUFFER GL_DEPTH_ATTACHMENT fb.depthHandle 0,
         .glDrawBuffers drawBuffers.length drawBuffers,
         .glCheckFramebufferStatus .GL_FRAMEBUFFER] }
  let frameBufferStatus := drv.framebufferStatus fbHandle
  let gl := if frameBufferStatus ≠ .GL_FRAMEBUFFER_COMPLETE then gl else gl
  (fb, gl.emit [.glBindFramebuffer .GL_FRAMEBUFFER 0])

/-- Embeds `void App::ConfigureFrameBuffer(FrameBuffer& aConfigFB)`: the framebuffer and
the process state after the call. -/
def ConfigureFrameBuffer {F : Type} (drv : Driver) (gl : GLState F) (app : App F)
    (aConfigFB : FrameBuffer) : FrameBuffer × GLState F :=
  let c := FrameBuffer.Clear gl aConfigFB
  let fb := c.1
  let t0 := CreateTexture drv c.2 app CreateTexture_default
  let fb := { fb with colorAttachment := fb.colorAttachment ++ [t0.1] }
  let t1 := CreateTexture drv t0.2 app true
  let fb := { fb with colorAttachment := fb.colorAttachment ++ [t1.1] }
  let t2 := CreateTexture drv t1.2 app true
  let fb := { fb with colorAttachment := fb.colorAttachment ++ [t2.1] }
  let t3 := CreateTexture drv t2.2 app true
  let fb := { fb with colorAttachment := fb.colorAttachment ++ [t3.1] }
  let gl := t3.2
  let depthHandle := drv.genName gl.issued
  let fb := { fb with depthHandle := depthHandle }
  let gl : GLState F :=
    { issued := gl.issued + 1, calls := gl.calls ++ depthTextureCalls app depthHandle }
  attachAndCheck drv gl fb

/-- Embeds `void App::ConfigureWaterBuffer(FrameBuffer& aConfigFB, GLuint& colorAttach,
GLuint& depth)`: the framebuffer, the two out-parameters `colorAttach` and `depth`,
and the process state after the call. -/
def ConfigureWaterBuffer {F : Type} (drv : Driver) (gl : GLState F) (app : App F)
    (aConfigFB : FrameBuffer) : FrameBuffer × GLuint × GLuint × GLState F :=
  let c := FrameBuffer.Clear gl aConfigFB
  let fb := c.1
  let t0 := CreateTexture drv c.2 app CreateTexture_default
  let colorAttach := t0.1
  let fb := { fb with colorAttachment := fb.colorAttachment ++ [colorAttach] }
  let gl := t0.2
  let depthHandle := drv.genName gl.issued
  let fb := { fb with depthHandle := depthHandle }
  let gl : GLState F :=
    { issued := gl.issued + 1, calls := gl.calls ++ depthTextureCalls app depthHandle }
  let depth := fb.depthHandle
  let r := attachAndCheck drv gl fb
  (r.1, colorAttach, depth, r.2)

/-! ## Notions used to state the properties of FindVAO -/

/-- A sequence of `FindVAO` calls on one submesh of one mesh, one call per
program of the list, in order. -/
def FindVAO_sequence {F : Type} (drv : Driver) (gl : GLState F) (mesh : Mesh) (submeshIndex : Nat) :
    List Program → Except Fault (Mesh × GLState F)
  | [] => .ok (mesh, gl)
  | program :: rest =>
    match FindVAO drv gl mesh submeshIndex program with
    | .error e => .error e
    | .ok (_, mesh1, gl1) => FindVAO_sequence drv gl1 mesh1 submeshIndex rest

/-- The submesh cache after some calls: handles are non-zero, no program has two
entries, and the programs with an entry are those of `seen`. -/
def CacheInv (vaos : List VAO) (seen : List GLuint) : Prop :=
  (∀ v ∈ vaos, v.handle ≠ 0) ∧ (vaos.map VAO.programHandle).Nodup ∧
    ∀ x, x ∈ vaos.map VAO.programHandle ↔ x ∈ seen

/-- The attribute indices that the `glVertexAttribPointer` calls of a call log
configure, in order. -/
def configuredAttributes {F : Type} : List (GLCall F) → List Nat
  | [] => []
  | .glVertexAttribPointer index _ _ _ _ _ :: rest => index :: configuredAttributes rest
  | _ :: rest => configuredAttributes rest

/-- Some attribute of the shader layout has a location that no attribute of the
vertex buffer layout has. -/
def LayoutMismatch (shader : VertexShaderLayout) (buffer : VertexBufferLayout) : Prop :=
  ∃ a ∈ shader.attributes, ∀ b ∈ buffer.attributes, b.location ≠ a.location

instance (shader : VertexShaderLayout) (buffer : VertexBufferLayout) :
    Decidable (LayoutMismatch shader buffer) := by
  unfold LayoutMismatch
  exact inferInstance

/-! ## Notions used to state the properties of the uniform buffer -/

/-- The bytes `[offset, offset + size)` of the uniform buffer. -/
def byteRange (offset size : Nat) : Finset Nat := Finset.Ico offset (offset + size)

/-! ## Notions used to state the properties of the program registry -/

/-- The shader objects a call log creates, each with its stage, in order. -/
def createdShaders {F : Type} : List (GLCall F) → List (GLenum × GLuint)
  | [] => []
  | .glCreateShader type name :: rest => (type, name) :: createdShaders rest
  | _ :: rest => createdShaders rest

/-- The source texts a call log hands to the compiler, in order: for each
`glShaderSource` call the shader object and the concatenation of its strings. -/
def shaderSources {F : Type} : List (GLCall F) → List (GLuint × String)
  | [] => []
  | .glShaderSource shader strings :: rest => (shader, String.join strings) :: shaderSources rest
  | _ :: rest => shaderSources rest

/-- A shader name of 119 bytes. -/
def longShaderName : String := String.mk (List.replicate 119 'A')

/-! ## Notions used to state the properties of a frame -/

/-- A submesh without its cache of bindings. -/
def SubMesh.static (s : SubMesh) : SubMesh := { s with vaos := [] }

/-- A mesh without the caches of its submeshes: what the asset loader made. -/
def Mesh.static (m : Mesh) : Mesh := { m with submeshes := m.submeshes.map SubMesh.static }

/-- The part of `App` that a frame reads and does not change: the resources,
their indices, the render targets, the name of the uniform buffer, and for each
entity its model. -/
structure Scene where
  programs : List Program
  textures : List Texture
  materials : List Material
  meshes : List Mesh
  models : List Model
  renderToBackBufferShader : Nat
  renderToFrameBufferShader : Nat
  framebufferToQuadShader : Nat
  waterShader : Nat
  waterBuffers : WaterBuffers
  deferredFrameBuffer : FrameBuffer
  uniformBuffer : GLuint
  entityModels : List Nat
  deriving DecidableEq, Repr

/-- The scene of an application state. -/
def App.scene {F : Type} (app : App F) : Scene :=
  { programs := app.programs
    textures := app.textures
    materials := app.materials
    meshes := app.meshes.map Mesh.static
    models := app.models
    renderToBackBufferShader := app.renderToBackBufferShader
    renderToFrameBufferShader := app.renderToFrameBufferShader
    framebufferToQuadShader := app.framebufferToQuadShader
    waterShader := app.waterShader
    waterBuffers := app.waterBuffers
    deferredFrameBuffer := app.deferredFrameBuffer
    uniformBuffer := app.localUniformBuffer.handle
    entityModels := app.entities.map Entity.modelIndex }

/-- The submesh `i` of a mesh can be drawn with the program by the model: the
program's attributes are all in its vertex layout, and the model's material for
it and that material's texture exist. -/
def SubmeshDrawable (s : Scene) (program : Program) (model : Model) (mesh : Mesh) (i : Nat) :
    Prop :=
  ∃ Submesh mi material texture,
    mesh.submeshes[i]? = some Submesh ∧
    ¬ LayoutMismatch program.shaderLayout Submesh.vertexBufferLayout ∧
    model.materialIdx[i]? = some mi ∧ s.materials[mi]? = some material ∧
    s.textures[material.albedoTextureIdx]? = some texture

/-- An entity with this model can be drawn with the program: the model and its
mesh exist, and every submesh of the mesh is drawable. -/
def EntityDrawable (s : Scene) (program : Program) (modelIndex : Nat) : Prop :=
  ∃ model mesh,
    s.models[modelIndex]? = some model ∧ s.meshes[model.meshIdx]? = some mesh ∧
    ∀ i, i < mesh.submeshes.length → SubmeshDrawable s program model mesh i

/-- Every entity of the scene can be drawn with the program. -/
def Scene.Drawable (s : Scene) (program : Program) : Prop :=
  ∀ modelIndex ∈ s.entityModels, EntityDrawable s program modelIndex

/-- The draw call `RenderGeometry` issues for a submesh. -/
def submeshDraw {F : Type} (Submesh : SubMesh) : GLCall F :=
  .glDrawElements .GL_TRIANGLES Submesh.indices.length .GL_UNSIGNED_INT Submesh.indexOffset

/-- The submeshes of the mesh of a model of the scene; none when the model or
its mesh does not exist. -/
def Scene.submeshesOf (s : Scene) (modelIndex : Nat) : List SubMesh :=
  match s.models[modelIndex]? with
  | none => []
  | some model =>
    match s.meshes[model.meshIdx]? with
    | none => []
    | some mesh => mesh.submeshes

/-- The draw calls of one geometry pass over the scene: one per submesh of every
entity's mesh, entity after entity. -/
def geometryDraws {F : Type} (s : Scene) : List (GLCall F) :=
  s.entityModels.flatMap (fun modelIndex => (s.submeshesOf modelIndex).map submeshDraw)

/-- The calls that tell the steps of a frame apart: binding a framebuffer,
selecting a program, drawing, reading the input, and mapping and unmapping the
uniform buffer. -/
def isMarker {F : Type} : GLCall F → Bool
  | .glBindFramebuffer _ _ => true
  | .glUseProgram _ => true
  | .glDrawElements _ _ _ _ => true
  | .glfwGetCurrentContext => true
  | .glfwGetKey _ => true
  | .MapBuffer _ _ => true
  | .UnmapBuffer _ => true
  | _ => false

/-- The calls that bracket the writes of one `UpdateEntityBuffer`. -/
def updateCalls {F : Type} (s : Scene) : List (GLCall F) :=
  [.MapBuffer s.uniformBuffer .GL_WRITE_ONLY, .UnmapBuffer s.uniformBuffer]

/-- The calls of `processInput(glfwGetCurrentContext())`. -/
def inputCalls {F : Type} : List (GLCall F) :=
  [.glfwGetCurrentContext, .glfwGetKey .GLFW_KEY_W, .glfwGetKey .GLFW_KEY_S,
   .glfwGetKey .GLFW_KEY_A, .glfwGetKey .GLFW_KEY_D]

/-- From `gl` to `gl1` calls were only added, and the markers among the added
calls are `markers`, in this order. -/
def MarkersBetween {F : Type} (gl gl1 : GLState F) (markers : List (GLCall F)) : Prop :=
  ∃ cs, gl1.calls = gl.calls ++ cs ∧ cs.filter isMarker = markers

/-- The position the reflection section of `Render` gives the camera before it
draws: `cameraPos.y -= distance`, with `distance` twice the height of the camera
over the water. -/
def mirroredCameraPos {F : Type} (g : Glm F) (app : App F) : Vec3 F :=
  { app.sceneCam.cameraPos with
    y := g.sub app.sceneCam.cameraPos.y
      (g.mul (g.ofInt 2) (g.sub app.sceneCam.cameraPos.y (GetHeight app.WaterWorldMatrix))) }

/-! ## Notions used to state the properties of LoadProgram, of the framebuffers
and of the attribute pointers -/

/-- The messages that the `ELOG` calls of a call log write, in order. -/
def loggedErrors {F : Type} : List (GLCall F) → List String
  | [] => []
  | .ELOG message :: rest => message :: loggedErrors rest
  | _ :: rest => loggedErrors rest

/-- The storage that the `glTexImage2D` calls of a call log allocate, in order:
the texture bound to `GL_TEXTURE_2D` at the call, the internal format and the
data type. `bound` is the texture bound before the first call of the log. -/
def textureStorage {F : Type} : GLuint → List (GLCall F) → List (GLuint × GLenum × GLenum)
  | _, [] => []
  | _, .glBindTexture .GL_TEXTURE_2D texture :: rest => textureStorage texture rest
  | bound, .glTexImage2D .GL_TEXTURE_2D _ internalformat _ _ _ _ type :: rest =>
    (bound, internalformat, type) :: textureStorage bound rest
  | bound, _ :: rest => textureStorage bound rest

/-- The attachments that the `glFramebufferTexture` calls of a call log make, in
order: the framebuffer bound to `GL_FRAMEBUFFER` at the call, the attachment
point and the texture. `bound` is the framebuffer bound before the first call
of the log. -/
def framebufferAttachments {F : Type} : GLuint → List (GLCall F) → List (GLuint × Nat × GLuint)
  | _, [] => []
  | _, .glBindFramebuffer .GL_FRAMEBUFFER framebuffer :: rest =>
    framebufferAttachments framebuffer rest
  | bound, .glFramebufferTexture .GL_FRAMEBUFFER attachment texture _ :: rest =>
    (bound, attachment, texture) :: framebufferAttachments bound rest
  | bound, _ :: rest => framebufferAttachments bound rest

/-- The read pointers that the `glVertexAttribPointer` calls of a call log
configure, in order: index, number of components, stride and byte offset. -/
def configuredPointers {F : Type} : List (GLCall F) → List (Nat × Nat × Nat × Nat)
  | [] => []
  | .glVertexAttribPointer index size _ _ stride pointer :: rest =>
    (index, size, stride, pointer) :: configuredPointers rest
  | _ :: rest => configuredPointers rest

/-- The attribute `a` is the first one of `attributes` that has the location
`location`. -/
def FirstWithLocation (attributes : List VertexBufferAttribute) (location : Nat)
    (a : VertexBufferAttribute) : Prop :=
  ∃ before after, attributes = before ++ a :: after ∧ a.location = location ∧
    ∀ b ∈ before, b.location ≠ location

/-- The locations that the driver reports for the active attributes of a
program, in the order of `glGetActiveAttrib`. -/
def reportedLocations (drv : Driver) (handle : GLuint) : List Int :=
  (drv.activeAttributes handle).map (fun a => drv.attribLocation handle a.name)

/-! ## The type float: IEEE 754 binary32 -/

/-- A `float` by its bit pattern: one sign bit, eight exponent bits, 23 fraction
bits. -/
structure Binary32 where
  bits : Nat
  deriving DecidableEq, Repr

namespace Binary32

/-- The sign bit. -/
def sign (x : Binary32) : Bool := x.bits / 2 ^ 31 % 2 == 1

/-- The exponent field. -/
def exponent (x : Binary32) : Nat := x.bits / 2 ^ 23 % 256

/-- The fraction field. -/
def fraction (x : Binary32) : Nat := x.bits % 2 ^ 23

/-- Not a number: the exponent field is all ones and the fraction is not zero. -/
def isNaN (x : Binary32) : Bool := x.exponent == 255 && x.fraction != 0

/-- An infinity: the exponent field is all ones and the fraction is zero. -/
def isInf (x : Binary32) : Bool := x.exponent == 255 && x.fraction == 0

/-- The absolute value of a finite `x` in units of `2^-149`. -/
def magnitude (x : Binary32) : Nat :=
  if x.exponent = 0 then x.fraction else (2 ^ 23 + x.fraction) * 2 ^ (x.exponent - 1)

/-- Plus or minus zero. -/
def isZero (x : Binary32) : Bool := x.magnitude == 0

/-- The value of a finite `x` in units of `2^-149`. -/
def scaled (x : Binary32) : Int := if x.sign then -(x.magnitude : Int) else x.magnitude

/-- The sign bit as a summand of the bit pattern. -/
def signBit (negative : Bool) : Nat := if negative then 2 ^ 31 else 0

/-- The quiet NaN an invalid operation gives. -/
def nan : Binary32 := ⟨0x7fc00000⟩

/-- Plus or minus infinity. -/
def inf (negative : Bool) : Binary32 := ⟨signBit negative + 0x7f800000⟩

/-- Plus or minus zero, by the sign. -/
def zero (negative : Bool) : Binary32 := ⟨signBit negative⟩

/-- The position of the highest set bit of `n` (zero for `n = 0`); `fuel` bounds
the number of halvings. -/
def log2 : Nat → Nat → Nat
  | 0, _ => 0
  | fuel + 1, n => if n < 2 then 0 else log2 fuel (n / 2) + 1

/-- The `float` nearest to the number `num / den` with the sign `negative`, ties
to the even fraction (the default rounding of IEEE 754); too large a number gives
an infinity. `den` is positive. With `n` the number in units of `2^-149`, the
quantum of the result is `2^q` of these units, where `q` is 0 for a subnormal
result; a number of more than 1024 bits has `q` above 254 like every number that
rounds to an infinity. -/
def round (negative : Bool) (num den : Nat) : Binary32 :=
  let n := num * 2 ^ 149
  let q := log2 1024 (n / den) - 23
  let d := den * 2 ^ q
  let m := n / d
  let r := n % d
  let m1 := if d < 2 * r ∨ (2 * r = d ∧ m % 2 = 1) then m + 1 else m
  let mag := q * 2 ^ 23 + m1
  if 0x7f800000 ≤ mag then inf negative else ⟨signBit negative + mag⟩

/-- The conversion of an `int`. -/
def ofInt (i : Int) : Binary32 := round (decide (i < 0)) i.natAbs 1

/-- A decimal literal with the suffix `f`. -/
def lit (q : ℚ) : Binary32 := round (decide (q < 0)) q.num.natAbs q.den

/-- The unary minus: the sign bit is flipped. -/
def neg (x : Binary32) : Binary32 :=
  if x.sign then ⟨x.bits - 2 ^ 31⟩ else ⟨x.bits + 2 ^ 31⟩

/-- The sum, rounded once. -/
def add (x y : Binary32) : Binary32 :=
  if x.isNaN || y.isNaN then nan
  else if x.isInf then (if y.isInf && (x.sign != y.sign) then nan else x)
  else if y.isInf then y
  else
    let s := x.scaled + y.scaled
    if s = 0 then zero (x.sign && y.sign) else round (decide (s < 0)) s.natAbs (2 ^ 149)

/-- The difference `x - y`, which is `x + (-y)`. -/
def sub (x y : Binary32) : Binary32 := add x (neg y)

/-- The product, rounded once. -/
def mul (x y : Binary32) : Binary32 :=
  if x.isNaN || y.isNaN then nan
  else if x.isInf || y.isInf then
    (if x.isZero || y.isZero then nan else inf (x.sign != y.sign))
  else round (x.sign != y.sign) (x.magnitude * y.magnitude) (2 ^ 149 * 2 ^ 149)

/-- The quotient, rounded once. -/
def div (x y : Binary32) : Binary32 :=
  if x.isNaN || y.isNaN then nan
  else if x.isInf then (if y.isInf then nan else inf (x.sign != y.sign))
  else if y.isInf then zero (x.sign != y.sign)
  else if y.isZero then (if x.isZero then nan else inf (x.sign != y.sign))
  else round (x.sign != y.sign) x.magnitude y.magnitude

end Binary32

/-- The arithmetic of `float` as IEEE 754 binary32 with rounding to nearest, ties
to even, over any implementation `glm` of the glm functions, which are outside the
repository. -/
def binary32 (glm : Glm Binary32) : Glm Binary32 :=
  { glm with
    ofInt := Binary32.ofInt
    lit := Binary32.lit
    add := Binary32.add
    sub := Binary32.sub
    mul := Binary32.mul
    div := Binary32.div
    neg := Binary32.neg }

/-! ## A concrete scene -/

/-- Integers in place of `float`, with integer arithmetic and fixed matrices. -/
def exampleGlm : Glm Int :=
  { ofInt := fun i => i
    lit := fun q => q.floor
    add := fun a b => a + b
    sub := fun a b => a - b
    mul := fun a b => a * b
    div := fun a b => a / b
    neg := fun a => -a
    radians := fun a => a
    perspective := fun _ _ _ _ => ⟨⟨1, 0, 0, 0⟩, ⟨0, 1, 0, 0⟩, ⟨0, 0, 1, 0⟩, ⟨0, 0, 0, 1⟩⟩
    lookAt := fun eye _ _ => ⟨⟨1, 0, 0, 0⟩, ⟨0, 1, 0, 0⟩, ⟨0, 0, 1, 0⟩, ⟨-eye.x, -eye.y, -eye.z, 1⟩⟩
    matMul := fun a _ => a
    normalize := fun v => v
    cross := fun a b => ⟨a.y * b.z - a.z * b.y, a.z * b.x - a.x * b.z, a.x * b.y - a.y * b.x⟩ }

/-- A driver that hands out the names 1, 2, 3, ... and reports success. -/
def exampleDriver : Driver :=
  { genName := fun k => k + 1
    uniformLocation := fun _ _ => 0
    keyPressed := fun k => decide (k = .GLFW_KEY_W)
    shaderCompiled := fun _ => true
    shaderInfoLog := fun _ => ""
    programLinked := fun _ => true
    programInfoLog := fun _ => ""
    activeAttributes := fun _ => [⟨"aPosition", 1, 35665⟩, ⟨"aTexCoord", 1, 35664⟩]
    attribLocation := fun _ name => if name = "aPosition" then 0 else 1
    readTextFile := fun _ => "void main() {}"
    fileLastWriteTimestamp := fun _ => 0
    framebufferStatus := fun _ => .GL_FRAMEBUFFER_COMPLETE }

/-- The process state before any call. -/
def exampleGL : GLState Int := { issued := 0, calls := [] }

/-- A triangle submesh with `position@0` (3 floats) and `uv@1` (2 floats). -/
def triangleSubMesh : SubMesh :=
  { vertexBufferLayout := { attributes := [⟨0, 3, 0⟩, ⟨1, 2, 12⟩], stride := 20 }
    indices := [0, 1, 2]
    vertexOffset := 0
    indexOffset := 0
    vaos := [] }

/-- A mesh of one triangle submesh. -/
def triangleMesh : Mesh :=
  { submeshes := [triangleSubMesh], vertexBufferHandle := 11, indexBufferHandle := 12 }

/-- A program that declares the attributes at locations 0 and 1. -/
def programPosUv (handle : GLuint) : Program :=
  { handle := handle, filepath := "RENDER_TO_FB.glsl", programName := "RENDER_TO_FB"
    lastWriteTimestamp := 0, shaderLayout := { attributes := [⟨0, 3⟩, ⟨1, 2⟩] } }

/-- A program that declares one attribute, at location 5. -/
def programLoc5 : Program :=
  { handle := 9, filepath := "OTHER.glsl", programName := "OTHER"
    lastWriteTimestamp := 0, shaderLayout := { attributes := [⟨5, 3⟩] } }

/-- The identity matrix over the integers. -/
def identity : Mat4 Int := ⟨⟨1, 0, 0, 0⟩, ⟨0, 1, 0, 0⟩, ⟨0, 0, 1, 0⟩, ⟨0, 0, 0, 1⟩⟩

/-- The water plane: the identity moved to height `-2`. -/
def waterMatrix : Mat4 Int := ⟨⟨1, 0, 0, 0⟩, ⟨0, 1, 0, 0⟩, ⟨0, 0, 1, 0⟩, ⟨0, -2, 0, 1⟩⟩

/-- A scene in deferred mode: four programs, the triangle mesh drawn by two
entities, two lights, the camera at `(1, 2, 3)`. -/
def exampleApp : App Int :=
  { deltaTime := 1
    displaySize := ⟨800, 600⟩
    programs := [programPosUv 21, programPosUv 22, programPosUv 23, programPosUv 24]
    textures := [⟨31⟩]
    materials := [⟨0⟩]
    meshes := [triangleMesh]
    models := [⟨0, [0]⟩]
    renderToBackBufferShader := 0
    renderToFrameBufferShader := 1
    framebufferToQuadShader := 2
    waterShader := 3
    texturedMeshProgram_uTexture := 0
    vao := 41
    waterVAO := 42
    mode := .Mode_Deferred
    maxUniformBufferSize := 65536
    uniformBlockAlignment := 256
    localUniformBuffer := ⟨51, 0, []⟩
    globalParamsOffset := 0
    globalParamsSize := 0
    entities := [⟨identity, 0, 0, 0⟩, ⟨identity, 0, 0, 0⟩]
    lights := [⟨.LightType_Directional, ⟨1, 1, 1⟩, ⟨1, -1, 1⟩, ⟨5, -3, 0⟩⟩,
               ⟨.LightType_Point, ⟨1, 0, 0⟩, ⟨1, 1, 1⟩, ⟨0, 0, -3⟩⟩]
    sceneCam := ⟨⟨1, 2, 3⟩, ⟨0, 0, -1⟩, ⟨0, 1, 0⟩, 0⟩
    projection := identity
    view := identity
    WaterWorldMatrix := waterMatrix
    waterBuffers := ⟨⟨61, [62], 63⟩, ⟨64, [65], 66⟩, 62, 63, 65, 66⟩
    deferredFrameBuffer := ⟨71, [72, 73, 74, 75], 76⟩ }

/-- A driver for a vertex shader that reads `gl_VertexID`: the built-in input is
an active attribute and has no location, `glGetAttribLocation` returns `-1` for it. -/
def builtinAttributeDriver : Driver :=
  { exampleDriver with
    activeAttributes := fun _ => [⟨"gl_VertexID", 1, 5124⟩, ⟨"aPosition", 1, 35665⟩]
    attribLocation := fun _ name => if name = "aPosition" then 0 else -1 }

/-- A driver under which no framebuffer is complete. -/
def incompleteDriver : Driver :=
  { exampleDriver with framebufferStatus := fun _ => .GL_FRAMEBUFFER_UNSUPPORTED }

/-- A submesh that starts 100 bytes into the shared vertex buffer, with
`position@0` at offset 0 and `uv@1` at offset 200 of a vertex of 208 bytes; a
second attribute at location 1 follows. -/
def wideSubMesh : SubMesh :=
  { vertexBufferLayout := { attributes := [⟨0, 3, 0⟩, ⟨1, 2, 200⟩, ⟨1, 4, 16⟩], stride := 208 }
    indices := [0, 1, 2]
    vertexOffset := 100
    indexOffset := 0
    vaos := [] }

/-- A mesh of one wide submesh. -/
def wideMesh : Mesh :=
  { submeshes := [wideSubMesh], vertexBufferHandle := 13, indexBufferHandle := 14 }

/-- The process state before any call, over `float`. -/
def floatGL : GLState Binary32 := { issued := 0, calls := [] }

/-- The identity matrix over `float`: `1.0f` is `0x3f800000`. -/
def identity32 : Mat4 Binary32 :=
  ⟨⟨⟨0x3f800000⟩, ⟨0⟩, ⟨0⟩, ⟨0⟩⟩, ⟨⟨0⟩, ⟨0x3f800000⟩, ⟨0⟩, ⟨0⟩⟩,
   ⟨⟨0⟩, ⟨0⟩, ⟨0x3f800000⟩, ⟨0⟩⟩, ⟨⟨0⟩, ⟨0⟩, ⟨0⟩, ⟨0x3f800000⟩⟩⟩

/-- The water plane over `float`: the identity moved to height `-2.0f`, which is
`0xc0000000`. -/
def waterMatrix32 : Mat4 Binary32 :=
  { identity32 with col3 := ⟨⟨0⟩, ⟨0xc0000000⟩, ⟨0⟩, ⟨0x3f800000⟩⟩ }

/-- The example scene over `float`, with the camera at height `0.1f`, which is
`0x3dcccccd`, and the pitch `-15.0f`. -/
def floatApp : App Binary32 :=
  { deltaTime := ⟨0x3c888889⟩
    displaySize := ⟨800, 600⟩
    programs := [programPosUv 21, programPosUv 22, programPosUv 23, programPosUv 24]
    textures := [⟨31⟩]
    materials := [⟨0⟩]
    meshes := [triangleMesh]
    models := [⟨0, [0]⟩]
    renderToBackBufferShader := 0
    renderToFrameBufferShader := 1
    framebufferToQuadShader := 2
    waterShader := 3
    texturedMeshProgram_uTexture := 0
    vao := 41
    waterVAO := 42
    mode := .Mode_Deferred
    maxUniformBufferSize := 65536
    uniformBlockAlignment := 256
    localUniformBuffer := ⟨51, 0, []⟩
    globalParamsOffset := 0
    globalParamsSize := 0
    entities := [⟨identity32, 0, 0, 0⟩, ⟨identity32, 0, 0, 0⟩]
    lights := [⟨.LightType_Directional, ⟨⟨0x3f800000⟩, ⟨0x3f800000⟩, ⟨0x3f800000⟩⟩,
                ⟨⟨0x3f800000⟩, ⟨0xbf800000⟩, ⟨0x3f800000⟩⟩, ⟨⟨0⟩, ⟨0⟩, ⟨0⟩⟩⟩]
    sceneCam := ⟨⟨⟨0x3f800000⟩, ⟨0x3dcccccd⟩, ⟨0x40400000⟩⟩,
                 ⟨⟨0⟩, ⟨0⟩, ⟨0xbf800000⟩⟩, ⟨⟨0⟩, ⟨0x3f800000⟩, ⟨0⟩⟩, ⟨0xc1700000⟩⟩
    projection := identity32
    view := identity32
    WaterWorldMatrix := waterMatrix32
    waterBuffers := ⟨⟨61, [62], 63⟩, ⟨64, [65], 66⟩, 62, 63, 65, 66⟩
    deferredFrameBuffer := ⟨71, [72, 73, 74, 75], 76⟩ }

/-! ## FindVAO: the binding cache (C1) and the layout check (C2) -/

theorem lookupVAO_eq_zero_of_not_mem (vaos : List VAO) (p : GLuint)
    (h : ∀ v ∈ vaos, v.programHandle ≠ p) : lookupVAO vaos p = 0 := by
  induction vaos with
  | nil => rfl
  | cons v rest ih =>
    simp only [lookupVAO]
    rw [if_neg (h v (List.mem_cons_self _ _))]
    exact ih (fun w hw => h w (List.mem_cons_of_mem _ hw))

theorem not_mem_of_lookupVAO_eq_zero (vaos : List VAO) (p : GLuint)
    (hnz : ∀ v ∈ vaos, v.handle ≠ 0) (h : lookupVAO vaos p = 0) :
    ∀ v ∈ vaos, v.programHandle ≠ p := by
  induction vaos with
  | nil => intro v hv; cases hv
  | cons v rest ih =>
    simp only [lookupVAO] at h
    by_cases hv : v.programHandle = p
    · rw [if_pos hv] at h
      exact absurd h (hnz v (List.mem_cons_self _ _))
    · rw [if_neg hv] at h
      intro w hw
      rcases List.mem_cons.1 hw with rfl | hw
      · exact hv
      · exact ih (fun u hu => hnz u (List.mem_cons_of_mem _ hu)) h w hw

theorem lookupVAO_append_new (vaos : List VAO) (p h : GLuint)
    (hno : ∀ v ∈ vaos, v.programHandle ≠ p) :
    lookupVAO (vaos ++ [{ handle := h, programHandle := p }]) p = h := by
  induction vaos with
  | nil => simp [lookupVAO]
  | cons v rest ih =>
    simp only [List.cons_append, lookupVAO]
    rw [if_neg (hno v (List.mem_cons_self _ _))]
    exact ih (fun w hw => hno w (List.mem_cons_of_mem _ hw))

theorem mem_of_lookupVAO_ne_zero (vaos : List VAO) (p : GLuint) (h : lookupVAO vaos p ≠ 0) :
    ∃ v ∈ vaos, v.programHandle = p := by
  by_contra hc
  push_neg at hc
  exact h (lookupVAO_eq_zero_of_not_mem vaos p hc)

/-- What one `FindVAO` call does, case by case. -/
theorem FindVAO_ok_cases {F : Type} (drv : Driver) (gl : GLState F) (mesh : Mesh) (i : Nat)
    (p : Program) (Submesh : SubMesh) (hsub : mesh.submeshes[i]? = some Submesh)
    (h : GLuint) (mesh1 : Mesh) (gl1 : GLState F)
    (hok : FindVAO drv gl mesh i p = .ok (h, mesh1, gl1)) :
    (lookupVAO Submesh.vaos p.handle ≠ 0 ∧ h = lookupVAO Submesh.vaos p.handle ∧ mesh1 = mesh ∧ gl1 = gl) ∨
    (lookupVAO Submesh.vaos p.handle = 0 ∧ h = drv.genName gl.issued ∧
      mesh1.submeshes[i]? = some { Submesh with vaos := Submesh.vaos ++ [{ handle := h, programHandle := p.handle }] } ∧
      gl1.issued = gl.issued + 1) := by
  unfold FindVAO at hok
  rw [hsub] at hok
  simp only at hok
  by_cases hz : lookupVAO Submesh.vaos p.handle = 0
  · right
    rw [if_pos hz] at hok
    cases hl : linkAttributes (F := F) Submesh p.shaderLayout.attributes with
    | error e => rw [hl] at hok; cases hok
    | ok calls =>
      rw [hl] at hok
      simp only [Except.ok.injEq, Prod.mk.injEq] at hok
      obtain ⟨h1, h2, h3⟩ := hok
      have hlt : i < mesh.submeshes.length := by
        rcases List.getElem?_eq_some.1 hsub with ⟨hlt, _⟩
        exact hlt
      refine ⟨hz, h1.symm, ?_, ?_⟩
      · rw [← h2, ← h1]
        simp [hlt]
      · rw [← h3]; rfl
  · left
    rw [if_neg hz] at hok
    simp only [Except.ok.injEq, Prod.mk.injEq] at hok
    exact ⟨hz, hok.1.symm, hok.2.1.symm, hok.2.2.symm⟩

theorem CacheInv_length (vaos : List VAO) (seen : List GLuint) (h : CacheInv vaos seen) :
    vaos.length = seen.dedup.length := by
  obtain ⟨_, hnd, hmem⟩ := h
  have h1 : (vaos.map VAO.programHandle).toFinset = seen.toFinset := by
    ext x; simp only [List.mem_toFinset]; exact hmem x
  have h2 : (vaos.map VAO.programHandle).toFinset.card = vaos.length := by
    rw [List.toFinset_card_of_nodup hnd, List.length_map]
  rw [← h2, h1, List.card_toFinset]

theorem FindVAO_step_inv {F : Type} (drv : Driver) (hgen : ∀ k, drv.genName k ≠ 0)
    (gl : GLState F) (mesh : Mesh) (i : Nat) (p : Program) (Submesh : SubMesh)
    (hsub : mesh.submeshes[i]? = some Submesh) (seen : List GLuint)
    (hinv : CacheInv Submesh.vaos seen)
    (h : GLuint) (mesh1 : Mesh) (gl1 : GLState F)
    (hok : FindVAO drv gl mesh i p = .ok (h, mesh1, gl1)) :
    ∃ Submesh1, mesh1.submeshes[i]? = some Submesh1 ∧
      CacheInv Submesh1.vaos (seen ++ [p.handle]) := by
  obtain ⟨hnz, hnd, hmem⟩ := hinv
  rcases FindVAO_ok_cases drv gl mesh i p Submesh hsub h mesh1 gl1 hok with
    ⟨hhit, _, hm, _⟩ | ⟨hmiss, hh, hm, _⟩
  · refine ⟨Submesh, by rw [hm]; exact hsub, hnz, hnd, ?_⟩
    intro x
    obtain ⟨v, hv, hvp⟩ := mem_of_lookupVAO_ne_zero _ _ hhit
    have hp : p.handle ∈ Submesh.vaos.map VAO.programHandle :=
      List.mem_map.2 ⟨v, hv, hvp⟩
    constructor
    · intro hx; exact List.mem_append_left _ ((hmem x).1 hx)
    · intro hx
      rcases List.mem_append.1 hx with hx | hx
      · exact (hmem x).2 hx
      · rw [List.mem_singleton] at hx; rw [hx]; exact hp
  · have hno := not_mem_of_lookupVAO_eq_zero _ _ hnz hmiss
    refine ⟨_, hm, ?_, ?_, ?_⟩
    · intro v hv
      rcases List.mem_append.1 hv with hv | hv
      · exact hnz v hv
      · rw [List.mem_singleton] at hv; rw [hv, hh]; exact hgen _
    · simp only [List.map_append, List.map_cons, List.map_nil]
      rw [List.nodup_append]
      refine ⟨hnd, List.nodup_singleton _, ?_⟩
      intro a ha hb
      rw [List.mem_singleton] at hb
      obtain ⟨v, hv, hvp⟩ := List.mem_map.1 ha
      exact hno v hv (hvp.trans hb)
    · intro x
      simp only [List.map_append, List.map_cons, List.map_nil, List.mem_append,
        List.mem_singleton]
      rw [hmem x]

theorem FindVAO_sequence_inv {F : Type} (drv : Driver) (hgen : ∀ k, drv.genName k ≠ 0)
    (i : Nat) (ps : List Program) :
    ∀ (gl : GLState F) (mesh : Mesh) (Submesh : SubMesh) (seen : List GLuint),
      mesh.submeshes[i]? = some Submesh → CacheInv Submesh.vaos seen →
      ∀ (mesh1 : Mesh) (gl1 : GLState F),
        FindVAO_sequence drv gl mesh i ps = .ok (mesh1, gl1) →
        ∃ Submesh1, mesh1.submeshes[i]? = some Submesh1 ∧
          CacheInv Submesh1.vaos (seen ++ ps.map Program.handle) := by
  induction ps with
  | nil =>
    intro gl mesh Submesh seen hsub hinv mesh1 gl1 hok
    simp only [FindVAO_sequence, Except.ok.injEq, Prod.mk.injEq] at hok
    refine ⟨Submesh, by rw [← hok.1]; exact hsub, ?_⟩
    simpa using hinv
  | cons p rest ih =>
    intro gl mesh Submesh seen hsub hinv mesh1 gl1 hok
    simp only [FindVAO_sequence] at hok
    cases hf : FindVAO drv gl mesh i p with
    | error e => rw [hf] at hok; cases hok
    | ok r =>
      obtain ⟨h, mesh2, gl2⟩ := r
      rw [hf] at hok
      simp only at hok
      obtain ⟨Submesh2, hsub2, hinv2⟩ :=
        FindVAO_step_inv drv hgen gl mesh i p Submesh hsub seen hinv h mesh2 gl2 hf
      obtain ⟨Submesh3, hsub3, hinv3⟩ := ih gl2 mesh2 Submesh2 _ hsub2 hinv2 mesh1 gl1 hok
      refine ⟨Submesh3, hsub3, ?_⟩
      simpa [List.append_assoc] using hinv3

/-- C1. `FindVAO` is cache-stable. With a driver that hands out non-zero names
and a submesh whose cached handles are non-zero: a second call with the same
submesh and program returns the handle of the first and changes neither the
mesh (so not the submesh's `vaos`) nor the OpenGL state; and after any sequence
of calls on a submesh that starts with no cached binding, the length of its
`vaos` is the number of distinct program handles passed. -/
theorem FindVAO_cache_stable {F : Type} (drv : Driver) (hgen : ∀ k, drv.genName k ≠ 0)
    (gl : GLState F) (mesh : Mesh) (i : Nat) (Submesh : SubMesh)
    (hsub : mesh.submeshes[i]? = some Submesh)
    (hvaos : ∀ v ∈ Submesh.vaos, v.handle ≠ 0) :
    (∀ (p : Program) (h : GLuint) (mesh1 : Mesh) (gl1 : GLState F),
      FindVAO drv gl mesh i p = .ok (h, mesh1, gl1) →
      FindVAO drv gl1 mesh1 i p = .ok (h, mesh1, gl1)) ∧
    (Submesh.vaos = [] →
      ∀ (ps : List Program) (mesh1 : Mesh) (gl1 : GLState F),
        FindVAO_sequence drv gl mesh i ps = .ok (mesh1, gl1) →
        ∃ Submesh1, mesh1.submeshes[i]? = some Submesh1 ∧
          Submesh1.vaos.length = (ps.map Program.handle).dedup.length) := by
  constructor
  · intro p h mesh1 gl1 hok
    rcases FindVAO_ok_cases drv gl mesh i p Submesh hsub h mesh1 gl1 hok with
      ⟨hhit, _, hm, hg⟩ | ⟨hmiss, hh, hm, _⟩
    · subst hm; subst hg; exact hok
    · have hno := not_mem_of_lookupVAO_eq_zero _ _ hvaos hmiss
      have hl := lookupVAO_append_new Submesh.vaos p.handle h hno
      have hne : h ≠ 0 := by rw [hh]; exact hgen _
      unfold FindVAO
      rw [hm]
      simp only [hl, if_neg hne]
  · intro hempty ps mesh1 gl1 hok
    have hinv : CacheInv Submesh.vaos [] := by
      rw [hempty]
      exact ⟨(by intro v hv; cases hv), (by simp), (by intro x; simp)⟩
    obtain ⟨Submesh1, hsub1, hinv1⟩ :=
      FindVAO_sequence_inv drv hgen i ps gl mesh Submesh [] hsub hinv mesh1 gl1 hok
    refine ⟨Submesh1, hsub1, ?_⟩
    have := CacheInv_length _ _ hinv1
    simpa using this

theorem configuredAttributes_append {F : Type} (xs ys : List (GLCall F)) :
    configuredAttributes (xs ++ ys) = configuredAttributes xs ++ configuredAttributes ys := by
  induction xs with
  | nil => rfl
  | cons c rest ih =>
    cases c <;> simp [configuredAttributes, ih]

theorem linkAttributes_error_iff {F : Type} (Submesh : SubMesh) (attrs : List VertexShaderAttribute) :
    (∃ e, linkAttributes (F := F) Submesh attrs = .error e) ↔
      ∃ a ∈ attrs, ∀ b ∈ Submesh.vertexBufferLayout.attributes, b.location ≠ a.location := by
  induction attrs with
  | nil => simp [linkAttributes]
  | cons s rest ih =>
    unfold linkAttributes
    cases hf : Submesh.vertexBufferLayout.attributes.find? (fun a => s.location == a.location) with
    | none =>
      simp only [List.mem_cons, exists_eq_or_imp]
      rw [List.find?_eq_none] at hf
      constructor
      · intro _
        left
        intro b hb hbl
        exact hf b hb (by simp [hbl])
      · intro _; exact ⟨_, rfl⟩
    | some b =>
      have hb : s.location = b.location := by
        have := List.find?_some hf
        simpa using this
      have hbm : b ∈ Submesh.vertexBufferLayout.attributes := List.mem_of_find?_eq_some hf
      simp only [List.mem_cons, exists_eq_or_imp]
      cases hr : linkAttributes (F := F) Submesh rest with
      | error e =>
        rw [hr] at ih
        simp only
        constructor
        · intro _; right; exact ih.1 ⟨e, rfl⟩
        · intro _; exact ⟨e, rfl⟩
      | ok calls =>
        rw [hr] at ih
        simp only
        constructor
        · rintro ⟨e, he⟩; cases he
        · rintro (h | h)
          · exact absurd hb.symm (h b hbm)
          · obtain ⟨e, he⟩ := ih.2 h; cases he

theorem linkAttributes_error_kind {F : Type} (Submesh : SubMesh) (attrs : List VertexShaderAttribute)
    (e : Fault) (h : linkAttributes (F := F) Submesh attrs = .error e) : e = .assertFailed := by
  induction attrs with
  | nil => simp [linkAttributes] at h
  | cons s rest ih =>
    unfold linkAttributes at h
    cases hf : Submesh.vertexBufferLayout.attributes.find? (fun a => s.location == a.location) with
    | none => rw [hf] at h; simp only [Except.error.injEq] at h; exact h.symm
    | some b =>
      rw [hf] at h
      cases hr : linkAttributes (F := F) Submesh rest with
      | error e2 => rw [hr] at h; simp only [Except.error.injEq] at h; subst h; exact ih hr
      | ok calls => rw [hr] at h; cases h

theorem linkAttributes_ok_configured {F : Type} (Submesh : SubMesh) (attrs : List VertexShaderAttribute) :
    ∀ calls, linkAttributes (F := F) Submesh attrs = .ok calls →
      configuredAttributes calls = attrs.map VertexShaderAttribute.location := by
  induction attrs with
  | nil => intro calls h; simp only [linkAttributes, Except.ok.injEq] at h; rw [← h]; rfl
  | cons s rest ih =>
    intro calls h
    unfold linkAttributes at h
    cases hf : Submesh.vertexBufferLayout.attributes.find? (fun a => s.location == a.location) with
    | none => rw [hf] at h; cases h
    | some b =>
      have hb : s.location = b.location := by
        have := List.find?_some hf
        simpa using this
      rw [hf] at h
      cases hr : linkAttributes (F := F) Submesh rest with
      | error e2 => rw [hr] at h; cases h
      | ok calls2 =>
        rw [hr] at h
        simp only [Except.ok.injEq] at h
        rw [← h]
        simp only [configuredAttributes, List.map_cons, ih calls2 hr, hb]

/-- C2. On a cache miss `FindVAO` fails, and then by the `assert`, exactly when
some attribute of the program's shader layout has a location that no attribute of
the submesh's vertex buffer layout has; when it does not fail it returns, and the
vertex attributes it configured are, in order, the locations of the program's
attributes: one per program attribute. -/
theorem FindVAO_miss_fails_iff {F : Type} (drv : Driver) (gl : GLState F) (mesh : Mesh) (i : Nat)
    (p : Program) (Submesh : SubMesh) (hsub : mesh.submeshes[i]? = some Submesh)
    (hmiss : lookupVAO Submesh.vaos p.handle = 0) :
    (FindVAO drv gl mesh i p = .error .assertFailed ↔
      LayoutMismatch p.shaderLayout Submesh.vertexBufferLayout) ∧
    (¬ LayoutMismatch p.shaderLayout Submesh.vertexBufferLayout →
      ∃ h mesh1 gl1 calls, FindVAO drv gl mesh i p = .ok (h, mesh1, gl1) ∧
        gl1.calls = gl.calls ++ calls ∧
        configuredAttributes calls = p.shaderLayout.attributes.map VertexShaderAttribute.location ∧
        (configuredAttributes calls).length = p.shaderLayout.attributes.length) := by
  have hiff := linkAttributes_error_iff (F := F) Submesh p.shaderLayout.attributes
  unfold FindVAO
  rw [hsub]
  simp only [hmiss, if_true]
  cases hl : linkAttributes (F := F) Submesh p.shaderLayout.attributes with
  | error e =>
    have he := linkAttributes_error_kind Submesh _ e hl
    subst he
    have hm : LayoutMismatch p.shaderLayout Submesh.vertexBufferLayout := hiff.1 ⟨_, hl⟩
    simp only [true_iff]
    exact ⟨hm, fun hn => absurd hm hn⟩
  | ok calls =>
    have hm : ¬ LayoutMismatch p.shaderLayout Submesh.vertexBufferLayout := by
      intro hm
      obtain ⟨e, he⟩ := hiff.2 hm
      rw [hl] at he; cases he
    have hc := linkAttributes_ok_configured Submesh _ calls hl
    refine ⟨⟨(fun h => by cases h), (fun h => absurd h hm)⟩, fun _ => ?_⟩
    refine ⟨_, _, _,
      [.glGenVertexArrays (drv.genName gl.issued), .glBindVertexArray (drv.genName gl.issued),
        .glBindBuffer .GL_ARRAY_BUFFER mesh.vertexBufferHandle,
        .glBindBuffer .GL_ELEMENT_ARRAY_BUFFER mesh.indexBufferHandle]
        ++ (calls ++ [.glBindVertexArray 0]), rfl, ?_, ?_, ?_⟩
    · simp only [GLState.emit]
      rw [List.append_assoc]
    · simp [configuredAttributes_append, configuredAttributes, hc]
    · simp [configuredAttributes_append, configuredAttributes, hc]

/-- C1, witness: the triangle mesh, bound twice to one program, and then to
three programs of which two have the same handle. -/
theorem FindVAO_cache_stable_witness :
    (∀ k, exampleDriver.genName k ≠ 0) ∧
    (∃ h mesh1 gl1,
      FindVAO exampleDriver exampleGL triangleMesh 0 (programPosUv 21) = .ok (h, mesh1, gl1) ∧
      FindVAO exampleDriver gl1 mesh1 0 (programPosUv 21) = .ok (h, mesh1, gl1)) ∧
    (∃ mesh1 gl1 Submesh1,
      FindVAO_sequence exampleDriver exampleGL triangleMesh 0
        [programPosUv 21, programPosUv 22, programPosUv 21] = .ok (mesh1, gl1) ∧
      mesh1.submeshes[0]? = some Submesh1 ∧ Submesh1.vaos.length = 2) := by
  have hgen : ∀ k, exampleDriver.genName k ≠ 0 := fun k => Nat.succ_ne_zero k
  have T := FindVAO_cache_stable exampleDriver hgen exampleGL triangleMesh 0 triangleSubMesh rfl
    (by intro v hv; cases hv)
  refine ⟨hgen, ?_, ?_⟩
  · cases hF : FindVAO exampleDriver exampleGL triangleMesh 0 (programPosUv 21) with
    | error e => exact absurd hF (by simp [FindVAO, triangleMesh, triangleSubMesh, lookupVAO, programPosUv, linkAttributes])
    | ok r =>
      obtain ⟨h, mesh1, gl1⟩ := r
      exact ⟨h, mesh1, gl1, rfl, T.1 _ _ _ _ hF⟩
  · cases hF : FindVAO_sequence exampleDriver exampleGL triangleMesh 0
        [programPosUv 21, programPosUv 22, programPosUv 21] with
    | error e => exact absurd hF (by simp [FindVAO_sequence, FindVAO, triangleMesh, triangleSubMesh, lookupVAO, programPosUv, linkAttributes, exampleDriver, exampleGL, GLState.emit])
    | ok r =>
      obtain ⟨mesh1, gl1⟩ := r
      obtain ⟨Submesh1, h1, h2⟩ := T.2 rfl _ _ _ hF
      exact ⟨mesh1, gl1, Submesh1, rfl, h1, h2⟩

/-- C2, witness: the triangle submesh with attributes at locations 0 and 1; a
program declaring locations 0 and 1 gets two configured attributes and no
failure, a program declaring location 5 fails the `assert`. -/
theorem FindVAO_miss_fails_iff_witness :
    (∃ h mesh1 gl1 calls,
      FindVAO exampleDriver exampleGL triangleMesh 0 (programPosUv 21) = .ok (h, mesh1, gl1) ∧
      gl1.calls = exampleGL.calls ++ calls ∧
      configuredAttributes calls = [0, 1] ∧
      (configuredAttributes calls).length = 2) ∧
    FindVAO exampleDriver exampleGL triangleMesh 0 programLoc5 = .error .assertFailed :=
  ⟨(FindVAO_miss_fails_iff exampleDriver exampleGL triangleMesh 0 (programPosUv 21)
      triangleSubMesh rfl rfl).2 (by decide),
   (FindVAO_miss_fails_iff exampleDriver exampleGL triangleMesh 0 programLoc5
      triangleSubMesh rfl rfl).1.2 (by decide)⟩

theorem find?_firstWithLocation (attributes : List VertexBufferAttribute) (location : Nat)
    (a : VertexBufferAttribute)
    (h : attributes.find? (fun b => location == b.location) = some a) :
    FirstWithLocation attributes location a := by
  induction attributes with
  | nil => simp at h
  | cons b rest ih =>
    rw [List.find?_cons] at h
    by_cases hb : location = b.location
    · simp only [hb, beq_self_eq_true, Option.some.injEq] at h
      subst h
      exact ⟨[], rest, rfl, hb.symm, by simp⟩
    · have hb2 : (location == b.location) = false := by simpa using hb
      rw [hb2] at h
      obtain ⟨before, after, h1, h2, h3⟩ := ih h
      refine ⟨b :: before, after, by rw [h1]; rfl, h2, ?_⟩
      intro c hc
      rcases List.mem_cons.1 hc with rfl | hc
      · exact fun hcl => hb hcl.symm
      · exact h3 c hc

theorem linkAttributes_ok_pointers {F : Type} (Submesh : SubMesh)
    (attrs : List VertexShaderAttribute) :
    ∀ calls, linkAttributes (F := F) Submesh attrs = .ok calls →
      ∃ bound : List VertexBufferAttribute,
        List.Forall₂ (fun s a => FirstWithLocation Submesh.vertexBufferLayout.attributes s.location a)
          attrs bound ∧
        configuredPointers calls = bound.map (fun a =>
          (a.location, a.componentCount, Submesh.vertexBufferLayout.stride,
            (a.offset + Submesh.vertexOffset) % 2 ^ 32)) := by
  induction attrs with
  | nil =>
    intro calls h
    simp only [linkAttributes, Except.ok.injEq] at h
    rw [← h]
    exact ⟨[], List.Forall₂.nil, rfl⟩
  | cons s rest ih =>
    intro calls h
    unfold linkAttributes at h
    cases hf : Submesh.vertexBufferLayout.attributes.find? (fun a => s.location == a.location) with
    | none => rw [hf] at h; cases h
    | some b =>
      rw [hf] at h
      cases hr : linkAttributes (F := F) Submesh rest with
      | error e2 => rw [hr] at h; cases h
      | ok calls2 =>
        rw [hr] at h
        simp only [Except.ok.injEq] at h
        obtain ⟨bound, hb1, hb2⟩ := ih calls2 hr
        refine ⟨b :: bound, List.Forall₂.cons (find?_firstWithLocation _ _ _ hf) hb1, ?_⟩
        rw [← h]
        simp only [configuredPointers, List.map_cons, hb2]

theorem configuredPointers_append {F : Type} (xs ys : List (GLCall F)) :
    configuredPointers (xs ++ ys) = configuredPointers xs ++ configuredPointers ys := by
  induction xs with
  | nil => rfl
  | cons c rest ih => cases c <;> simp [configuredPointers, ih]

theorem FirstWithLocation.mem {attributes : List VertexBufferAttribute} {location : Nat}
    {a : VertexBufferAttribute} (h : FirstWithLocation attributes location a) :
    a ∈ attributes := by
  obtain ⟨before, after, h1, -, -⟩ := h
  rw [h1]
  simp

theorem bound_mem (attributes : List VertexBufferAttribute) (attrs : List VertexShaderAttribute)
    (bound : List VertexBufferAttribute)
    (h : List.Forall₂ (fun s a => FirstWithLocation attributes s.location a) attrs bound) :
    ∀ a ∈ bound, a ∈ attributes := by
  induction h with
  | nil => intro a ha; cases ha
  | cons h1 _ ih =>
    intro a ha
    rcases List.mem_cons.1 ha with rfl | ha
    · exact h1.mem
    · exact ih a ha

/-- C15. On a `FindVAO` cache miss for a program whose attribute locations all
occur in the submesh layout, the call returns, and its `glVertexAttribPointer`
calls are, in the order of the program's attributes, one per program attribute:
the call for a program attribute is made for the first attribute of the submesh
layout with the same location, with that submesh attribute's location as index,
its `componentCount` as number of components, the stride of the submesh layout,
and as byte offset the `u32` sum of the attribute's offset and the submesh's
`vertexOffset`, which is their sum as numbers whenever that is below `2^32` (it
is not reduced to 8 bits). -/
theorem FindVAO_miss_pointers {F : Type} (drv : Driver) (gl : GLState F) (mesh : Mesh) (i : Nat)
    (p : Program) (Submesh : SubMesh) (hsub : mesh.submeshes[i]? = some Submesh)
    (hmiss : lookupVAO Submesh.vaos p.handle = 0)
    (hmatch : ¬ LayoutMismatch p.shaderLayout Submesh.vertexBufferLayout) :
    ∃ h mesh1 gl1 calls bound,
      FindVAO drv gl mesh i p = .ok (h, mesh1, gl1) ∧
      gl1.calls = gl.calls ++ calls ∧
      List.Forall₂
        (fun s a => FirstWithLocation Submesh.vertexBufferLayout.attributes s.location a)
        p.shaderLayout.attributes bound ∧
      configuredPointers calls = bound.map (fun a =>
        (a.location, a.componentCount, Submesh.vertexBufferLayout.stride,
          (a.offset + Submesh.vertexOffset) % 2 ^ 32)) ∧
      ((∀ a ∈ Submesh.vertexBufferLayout.attributes, a.offset + Submesh.vertexOffset < 2 ^ 32) →
        configuredPointers calls = bound.map (fun a =>
          (a.location, a.componentCount, Submesh.vertexBufferLayout.stride,
            a.offset + Submesh.vertexOffset))) := by
  have hiff := linkAttributes_error_iff (F := F) Submesh p.shaderLayout.attributes
  unfold FindVAO
  rw [hsub]
  simp only [hmiss, if_true]
  cases hl : linkAttributes (F := F) Submesh p.shaderLayout.attributes with
  | error e => exact absurd (hiff.1 ⟨_, hl⟩) hmatch
  | ok calls =>
    obtain ⟨bound, hb1, hb2⟩ := linkAttributes_ok_pointers Submesh _ calls hl
    have hcp : configuredPointers
        ([GLCall.glGenVertexArrays (drv.genName gl.issued),
          GLCall.glBindVertexArray (drv.genName gl.issued),
          GLCall.glBindBuffer .GL_ARRAY_BUFFER mesh.vertexBufferHandle,
          GLCall.glBindBuffer .GL_ELEMENT_ARRAY_BUFFER mesh.indexBufferHandle] ++
          (calls ++ [GLCall.glBindVertexArray (F := F) 0])) = configuredPointers calls := by
      rw [configuredPointers_append, configuredPointers_append]
      simp [configuredPointers]
    refine ⟨_, _, _, _, bound, rfl, ?_, hb1, hcp.trans hb2, ?_⟩
    · simp only [GLState.emit, List.append_assoc]
    · intro hlt
      rw [hcp, hb2]
      apply List.map_congr_left
      intro a ha
      rw [Nat.mod_eq_of_lt (hlt a (bound_mem _ _ _ hb1 a ha))]

/-- C15, witness: the wide submesh, which starts 100 bytes into the vertex
buffer and has two attributes at location 1; the pointer for location 1 is
configured from the first of them, at byte `200 + 100 = 300`. -/
theorem FindVAO_miss_pointers_witness :
    (∃ h mesh1 gl1 calls bound,
      FindVAO exampleDriver exampleGL wideMesh 0 (programPosUv 21) = .ok (h, mesh1, gl1) ∧
      gl1.calls = exampleGL.calls ++ calls ∧
      List.Forall₂
        (fun s a => FirstWithLocation wideSubMesh.vertexBufferLayout.attributes s.location a)
        (programPosUv 21).shaderLayout.attributes bound ∧
      configuredPointers calls = bound.map (fun a =>
        (a.location, a.componentCount, wideSubMesh.vertexBufferLayout.stride,
          (a.offset + wideSubMesh.vertexOffset) % 2 ^ 32)) ∧
      ((∀ a ∈ wideSubMesh.vertexBufferLayout.attributes,
          a.offset + wideSubMesh.vertexOffset < 2 ^ 32) →
        configuredPointers calls = bound.map (fun a =>
          (a.location, a.componentCount, wideSubMesh.vertexBufferLayout.stride,
            a.offset + wideSubMesh.vertexOffset)))) ∧
    (FindVAO exampleDriver exampleGL wideMesh 0 (programPosUv 21)).toOption.map
        (fun r => configuredPointers r.2.2.calls) =
      some [(0, 3, 208, 100), (1, 2, 208, 300)] :=
  ⟨FindVAO_miss_pointers exampleDriver exampleGL wideMesh 0 (programPosUv 21) wideSubMesh
    rfl rfl (by decide), rfl⟩

/-! ## UpdateEntityBuffer: the blocks of the uniform buffer (C3) -/

theorem le_Align (value alignment : Nat) (h : 0 < alignment) : value ≤ Align value alignment := by
  unfold Align
  have h1 := Nat.lt_div_mul_add (a := value + alignment - 1) h
  omega

theorem dvd_Align (value alignment : Nat) : alignment ∣ Align value alignment :=
  Dvd.intro_left _ rfl

theorem PushAlignedData_head {F : Type} (buffer : Buffer F) (data : Datum F) (size alignment : Nat)
    (h : 0 < alignment) : buffer.head + size ≤ (PushAlignedData buffer data size alignment).head := by
  simp only [PushAlignedData, AlignHead]
  have := le_Align buffer.head alignment h
  omega

theorem byteRange_disjoint_of_le (o1 s1 o2 s2 : Nat) (h : o1 + s1 ≤ o2) :
    Disjoint (byteRange o1 s1) (byteRange o2 s2) := by
  rw [Finset.disjoint_left]
  intro x hx1 hx2
  simp only [byteRange, Finset.mem_Ico] at hx1 hx2
  omega

/-- What the loop over the entities records, for any buffer it starts from. -/
theorem pushEntities_spec {F : Type} (g : Glm F) (lay : PushLayout) (hlay : lay.Valid)
    (a : Nat) (ha : 0 < a) (projection view : Mat4 F) (es : List (Entity F)) :
    ∀ buffer : Buffer F,
      let r := pushEntities g lay a projection view buffer es
      r.2.length = es.length ∧ buffer.head ≤ r.1.head ∧
      (∀ e ∈ r.2, a ∣ e.localParamsOffset ∧ buffer.head ≤ e.localParamsOffset ∧
        e.localParamsOffset + e.localParamsSize ≤ r.1.head ∧ 2 * sizeofMat4 ≤ e.localParamsSize) ∧
      r.2.Pairwise (fun e1 e2 => e1.localParamsOffset + e1.localParamsSize ≤ e2.localParamsOffset) := by
  induction es with
  | nil =>
    intro buffer
    simp [pushEntities]
  | cons it rest ih =>
    intro buffer
    have hm := hlay.2.2
    simp only [pushEntities]
    set b0 := AlignHead buffer a with hb0
    set b1 := PushMat4 lay b0 it.worldMatrix with hb1
    set b2 := PushMat4 lay b1 (g.matMul (g.matMul projection view) it.worldMatrix) with hb2
    have h0 : buffer.head ≤ b0.head := le_Align _ _ ha
    have h0d : a ∣ b0.head := dvd_Align _ _
    have h1 : b0.head + sizeofMat4 ≤ b1.head := PushAlignedData_head _ _ _ _ hm
    have h2 : b1.head + sizeofMat4 ≤ b2.head := PushAlignedData_head _ _ _ _ hm
    obtain ⟨ihlen, ihhead, ihall, ihpw⟩ := ih b2
    refine ⟨by simp [ihlen], by omega, ?_, ?_⟩
    · intro e he
      rcases List.mem_cons.1 he with rfl | he
      · simp only
        refine ⟨h0d, h0, ?_, ?_⟩ <;> omega
      · obtain ⟨e1, e2, e3, e4⟩ := ihall e he
        exact ⟨e1, by omega, e3, e4⟩
    · rw [List.pairwise_cons]
      refine ⟨?_, ihpw⟩
      intro e he
      obtain ⟨_, e2, _, _⟩ := ihall e he
      simp only
      omega

theorem UpdateEntityBuffer_entities {F : Type} (g : Glm F) (drv : Driver) (lay : PushLayout)
    (gl : GLState F) (app : App F) (mouse : Bool) :
    ∃ (buffer : Buffer F) (projection view : Mat4 F),
      (UpdateEntityBuffer g drv lay gl app mouse).1.entities =
        (pushEntities g lay app.uniformBlockAlignment projection view buffer app.entities).2 ∧
      (UpdateEntityBuffer g drv lay gl app mouse).1.globalParamsOffset +
        (UpdateEntityBuffer g drv lay gl app mouse).1.globalParamsSize ≤ buffer.head := by
  cases mouse
  · refine ⟨_, _, _, rfl, ?_⟩
    simp [UpdateEntityBuffer, MapBuffer]
  · refine ⟨_, _, _, rfl, ?_⟩
    simp [UpdateEntityBuffer, MapBuffer, processInput]

/-- C3. After one `UpdateEntityBuffer` call, for all lights, entities and every
positive `uniformBlockAlignment` (and whatever padding the `Push*` macros
apply): no entity is added or dropped, every entity's `localParamsOffset` is a
multiple of `uniformBlockAlignment`, its block is at least two matrices long, the
blocks `[localParamsOffset, localParamsOffset + localParamsSize)` of two different
entities are disjoint, and each is disjoint from the global block
`[globalParamsOffset, globalParamsOffset + globalParamsSize)`. -/
theorem UpdateEntityBuffer_blocks_aligned_disjoint {F : Type} (g : Glm F) (drv : Driver)
    (lay : PushLayout) (hlay : lay.Valid) (gl : GLState F) (app : App F) (mouse : Bool)
    (halign : 0 < app.uniformBlockAlignment) :
    let app1 := (UpdateEntityBuffer g drv lay gl app mouse).1
    app1.entities.length = app.entities.length ∧
    (∀ e ∈ app1.entities, app.uniformBlockAlignment ∣ e.localParamsOffset ∧
      2 * sizeofMat4 ≤ e.localParamsSize ∧
      Disjoint (byteRange app1.globalParamsOffset app1.globalParamsSize)
        (byteRange e.localParamsOffset e.localParamsSize)) ∧
    (∀ (i j : Nat) (hi : i < app1.entities.length) (hj : j < app1.entities.length), i ≠ j →
      Disjoint (byteRange app1.entities[i].localParamsOffset app1.entities[i].localParamsSize)
        (byteRange app1.entities[j].localParamsOffset app1.entities[j].localParamsSize)) := by
  intro app1
  obtain ⟨buffer, projection, view, hent, hglob⟩ :=
    UpdateEntityBuffer_entities g drv lay gl app mouse
  obtain ⟨hlen, _, hall, hpw⟩ :=
    pushEntities_spec g lay hlay app.uniformBlockAlignment halign projection view app.entities buffer
  have hent1 : app1.entities =
      (pushEntities g lay app.uniformBlockAlignment projection view buffer app.entities).2 := hent
  rw [← hent1] at hlen hall hpw
  refine ⟨hlen, ?_, ?_⟩
  · intro e he
    obtain ⟨e1, e2, _, e4⟩ := hall e he
    refine ⟨e1, e4, byteRange_disjoint_of_le _ _ _ _ ?_⟩
    exact le_trans hglob e2
  · intro i j hi hj hij
    rw [List.pairwise_iff_getElem] at hpw
    rcases Nat.lt_or_gt_of_ne hij with h | h
    · exact byteRange_disjoint_of_le _ _ _ _ (hpw i j hi hj h)
    · exact (byteRange_disjoint_of_le _ _ _ _ (hpw j i hj hi h)).symm

/-- C3, witness: the example scene, with 256 as alignment. -/
theorem UpdateEntityBuffer_blocks_aligned_disjoint_witness :
    PushLayout.packed.Valid ∧ 0 < exampleApp.uniformBlockAlignment ∧
    (UpdateEntityBuffer exampleGlm exampleDriver .packed exampleGL exampleApp false).1.entities.map
        (fun e => (e.localParamsOffset, e.localParamsSize)) = [(256, 128), (512, 128)] ∧
    (let app1 := (UpdateEntityBuffer exampleGlm exampleDriver .packed exampleGL exampleApp false).1
     app1.entities.length = exampleApp.entities.length ∧
     (∀ e ∈ app1.entities, exampleApp.uniformBlockAlignment ∣ e.localParamsOffset ∧
       2 * sizeofMat4 ≤ e.localParamsSize ∧
       Disjoint (byteRange app1.globalParamsOffset app1.globalParamsSize)
         (byteRange e.localParamsOffset e.localParamsSize)) ∧
     (∀ (i j : Nat) (hi : i < app1.entities.length) (hj : j < app1.entities.length), i ≠ j →
       Disjoint (byteRange app1.entities[i].localParamsOffset app1.entities[i].localParamsSize)
         (byteRange app1.entities[j].localParamsOffset app1.entities[j].localParamsSize))) :=
  ⟨by decide, by decide, by decide,
   UpdateEntityBuffer_blocks_aligned_disjoint exampleGlm exampleDriver .packed (by decide)
     exampleGL exampleApp false (by decide)⟩

/-! ## UpdateEntityBuffer: the size of the global block (C4) -/

/-- C4, counterexample: the example scene has the camera at `(1, 2, 3)` and two
lights. The size recorded is 104 bytes when the `Push*` macros write each value
at the cursor, where the claimed
`sizeof(vec3) + sizeof(uint) + 2 * align16(sizeof(light-record))` is 112; it is
140 bytes when the macros pad as std140 does, where the claimed size is 144. -/
theorem UpdateEntityBuffer_globalParamsSize_not_claimed :
    exampleApp.sceneCam.cameraPos = ⟨1, 2, 3⟩ ∧ exampleApp.lights.length = 2 ∧
    (UpdateEntityBuffer exampleGlm exampleDriver .packed exampleGL exampleApp false).1.globalParamsSize
      = 104 ∧
    sizeofVec3 + sizeofUInt + 2 * Align sizeofLightRecord 16 = 112 ∧
    (UpdateEntityBuffer exampleGlm exampleDriver .std140 exampleGL exampleApp false).1.globalParamsSize
      = 140 ∧
    sizeofVec3 + sizeofUInt + 2 * Align sizeofLightRecordStd140 16 = 144 ∧
    (UpdateEntityBuffer exampleGlm exampleDriver .packed exampleGL exampleApp false).1.globalParamsSize
      ≠ sizeofVec3 + sizeofUInt + 2 * Align sizeofLightRecord 16 ∧
    (UpdateEntityBuffer exampleGlm exampleDriver .std140 exampleGL exampleApp false).1.globalParamsSize
      ≠ sizeofVec3 + sizeofUInt + 2 * Align sizeofLightRecordStd140 16 :=
  ⟨rfl, rfl, by decide, by decide, by decide, by decide, by decide, by decide⟩

/-- C4 (amended). With exactly two lights (and any camera position), the
`globalParamsSize` recorded by `UpdateEntityBuffer` is the distance from the
start of the block to the end of the second light record, which is not padded:
`sizeof(vec3) + sizeof(uint) + align16(sizeof(light-record)) + sizeof(light-record)`.
That is 104 bytes with the record of 40 bytes that the `Push*` macros make when
they write each value at the cursor, and 140 bytes with the record of 60 bytes
that they make when they pad as std140 does. -/
theorem UpdateEntityBuffer_globalParamsSize_two_lights {F : Type} (g : Glm F) (drv : Driver)
    (gl : GLState F) (app : App F) (mouse : Bool) (hl : app.lights.length = 2) :
    (UpdateEntityBuffer g drv .packed gl app mouse).1.globalParamsSize
      = sizeofVec3 + sizeofUInt + Align sizeofLightRecord 16 + sizeofLightRecord ∧
    (UpdateEntityBuffer g drv .packed gl app mouse).1.globalParamsSize = 104 ∧
    (UpdateEntityBuffer g drv .std140 gl app mouse).1.globalParamsSize
      = sizeofVec3 + sizeofUInt + Align sizeofLightRecordStd140 16 + sizeofLightRecordStd140 ∧
    (UpdateEntityBuffer g drv .std140 gl app mouse).1.globalParamsSize = 140 := by
  obtain ⟨l1, l2, hl2⟩ : ∃ l1 l2, app.lights = [l1, l2] := by
    match h : app.lights, hl with
    | [l1, l2], _ => exact ⟨l1, l2, rfl⟩
  cases mouse <;>
    simp [UpdateEntityBuffer, processInput, MapBuffer, hl2, pushLights, PushVec3, PushUInt,
      PushAlignedData, AlignHead, Align, PushLayout.packed, PushLayout.std140, sizeofVec3,
      sizeofUInt, sizeofVec4, sizeofLightRecord, sizeofLightRecordStd140]

/-- C4, witness: the example scene, camera at `(1, 2, 3)`, two lights. -/
theorem UpdateEntityBuffer_globalParamsSize_two_lights_witness :
    exampleApp.sceneCam.cameraPos = ⟨1, 2, 3⟩ ∧ exampleApp.lights.length = 2 ∧
    (UpdateEntityBuffer exampleGlm exampleDriver .packed exampleGL exampleApp false).1.globalParamsSize
      = 12 + 4 + 48 + 40 ∧
    (UpdateEntityBuffer exampleGlm exampleDriver .std140 exampleGL exampleApp false).1.globalParamsSize
      = 12 + 4 + 64 + 60 :=
  ⟨rfl, rfl,
   (UpdateEntityBuffer_globalParamsSize_two_lights exampleGlm exampleDriver exampleGL exampleApp
      false rfl).1,
   (UpdateEntityBuffer_globalParamsSize_two_lights exampleGlm exampleDriver exampleGL exampleApp
      false rfl).2.2.1⟩

/-! ## UpdateEntityBuffer: the calls it makes -/

theorem PushAlignedData_handle {F : Type} (buffer : Buffer F) (data : Datum F)
    (size alignment : Nat) : (PushAlignedData buffer data size alignment).handle = buffer.handle :=
  rfl

theorem pushLights_handle {F : Type} (lay : PushLayout) (lights : List (Light F)) :
    ∀ buffer : Buffer F, (pushLights lay buffer lights).handle = buffer.handle := by
  induction lights with
  | nil => intro buffer; rfl
  | cons light rest ih =>
    intro buffer
    simp only [pushLights]
    rw [ih]
    rfl

theorem pushEntities_handle {F : Type} (g : Glm F) (lay : PushLayout) (a : Nat)
    (projection view : Mat4 F) (es : List (Entity F)) :
    ∀ buffer : Buffer F,
      (pushEntities g lay a projection view buffer es).1.handle = buffer.handle := by
  induction es with
  | nil => intro buffer; rfl
  | cons it rest ih =>
    intro buffer
    simp only [pushEntities]
    rw [ih]
    rfl

/-- The calls one `UpdateEntityBuffer` makes: GLFW is asked for the window and the
four keys when `mouse` is set, then the buffer is mapped and unmapped. -/
theorem UpdateEntityBuffer_calls {F : Type} (g : Glm F) (drv : Driver) (lay : PushLayout)
    (gl : GLState F) (app : App F) (mouse : Bool) :
    (UpdateEntityBuffer g drv lay gl app mouse).2 =
      gl.emit ((if mouse then
          [.glfwGetCurrentContext, .glfwGetKey .GLFW_KEY_W, .glfwGetKey .GLFW_KEY_S,
           .glfwGetKey .GLFW_KEY_A, .glfwGetKey .GLFW_KEY_D] else []) ++
        [.MapBuffer app.localUniformBuffer.handle .GL_WRITE_ONLY,
         .UnmapBuffer app.localUniformBuffer.handle]) := by
  cases mouse
  · simp [UpdateEntityBuffer, MapBuffer, UnmapBuffer, GLState.emit, pushEntities_handle,
      pushLights_handle, PushVec3, PushUInt, PushAlignedData_handle]
  · simp [UpdateEntityBuffer, MapBuffer, UnmapBuffer, GLState.emit, processInput,
      pushEntities_handle, pushLights_handle, PushVec3, PushUInt, PushAlignedData_handle]

/-! ## Render in deferred mode: the sections of a frame (C5, C6, C7, C16) -/

theorem submeshDraw_static {F : Type} (s : SubMesh) :
    submeshDraw (F := F) s.static = submeshDraw s := rfl

theorem set_eq_self_of_getElem? {α : Type} (l : List α) (i : Nat) (a : α)
    (h : l[i]? = some a) : l.set i a = l := by
  apply List.ext_getElem?
  intro j
  by_cases hij : i = j
  · subst hij
    rw [List.getElem?_set_self (List.getElem?_eq_some.1 h).1, h]
  · rw [List.getElem?_set_ne hij]

theorem getElem?_of_static {mesh ms : Mesh} (h : mesh.static = ms) {i : Nat} {S : SubMesh}
    (hS : ms.submeshes[i]? = some S) :
    ∃ S1, mesh.submeshes[i]? = some S1 ∧ S1.static = S := by
  subst h
  simp only [Mesh.static, List.getElem?_map] at hS
  cases hm : mesh.submeshes[i]? with
  | none => rw [hm] at hS; cases hS
  | some S1 =>
    rw [hm] at hS
    simp only [Option.map_some', Option.some.injEq] at hS
    exact ⟨S1, rfl, hS⟩

theorem linkAttributes_no_marker {F : Type} (Submesh : SubMesh)
    (attrs : List VertexShaderAttribute) :
    ∀ calls, linkAttributes (F := F) Submesh attrs = .ok calls → calls.filter isMarker = [] := by
  induction attrs with
  | nil => intro calls h; simp only [linkAttributes, Except.ok.injEq] at h; rw [← h]; rfl
  | cons s rest ih =>
    intro calls h
    unfold linkAttributes at h
    cases hf : Submesh.vertexBufferLayout.attributes.find? (fun a => s.location == a.location) with
    | none => rw [hf] at h; cases h
    | some b =>
      rw [hf] at h
      cases hr : linkAttributes (F := F) Submesh rest with
      | error e2 => rw [hr] at h; cases h
      | ok calls2 =>
        rw [hr] at h
        simp only [Except.ok.injEq] at h
        rw [← h]
        simp [List.filter, isMarker, ih calls2 hr]

/-- The function `FindVAO` returns on a submesh whose layout has every attribute of the
program; it leaves the mesh as the loader made it and makes no marker call. -/
theorem FindVAO_returns {F : Type} (drv : Driver) (gl : GLState F) (mesh : Mesh) (i : Nat)
    (p : Program) (Submesh : SubMesh) (hsub : mesh.submeshes[i]? = some Submesh)
    (hlay : ¬ LayoutMismatch p.shaderLayout Submesh.vertexBufferLayout) :
    ∃ vao mesh1 gl1 cs, FindVAO drv gl mesh i p = .ok (vao, mesh1, gl1) ∧
      mesh1.static = mesh.static ∧ gl1.calls = gl.calls ++ cs ∧ cs.filter isMarker = [] := by
  unfold FindVAO
  rw [hsub]
  simp only
  by_cases hz : lookupVAO Submesh.vaos p.handle = 0
  · rw [if_pos hz]
    cases hl : linkAttributes (F := F) Submesh p.shaderLayout.attributes with
    | error e =>
      exact absurd ((linkAttributes_error_iff Submesh _).1 ⟨e, hl⟩) hlay
    | ok calls =>
      simp only
      refine ⟨_, _, _,
        [.glGenVertexArrays (drv.genName gl.issued), .glBindVertexArray (drv.genName gl.issued),
          .glBindBuffer .GL_ARRAY_BUFFER mesh.vertexBufferHandle,
          .glBindBuffer .GL_ELEMENT_ARRAY_BUFFER mesh.indexBufferHandle]
          ++ (calls ++ [.glBindVertexArray 0]), rfl, ?_, ?_, ?_⟩
      · simp only [Mesh.static, List.map_set]
        congr 1
        apply set_eq_self_of_getElem?
        rw [List.getElem?_map, hsub]
        rfl
      · simp only [GLState.emit]
        rw [List.append_assoc]
      · simp [List.filter, isMarker, linkAttributes_no_marker Submesh _ calls hl]
  · rw [if_neg hz]
    exact ⟨_, _, _, [], rfl, rfl, by simp, rfl⟩

theorem index_eq_ok {α : Type} {v : List α} {i : Nat} {a : α} (h : v[i]? = some a) :
    index v i = .ok a := by
  unfold index
  rw [h]

theorem range_filterMap_getElem? {α β : Type} (f : α → β) (l : List α) :
    (List.range l.length).filterMap (fun i => l[i]?.map f) = l.map f := by
  induction l with
  | nil => rfl
  | cons a rest ih =>
    rw [List.length_cons, List.range_succ_eq_map, List.filterMap_cons]
    simp only [List.getElem?_cons_zero, Option.map_some', List.map_cons, List.filterMap_map]
    congr 1
    rw [← ih]
    congr 1
    funext i
    simp

/-- The loop over the submeshes returns when every submesh it visits is drawable;
its marker calls are the draw calls of the submeshes visited. -/
theorem drawSubmeshes_returns {F : Type} (drv : Driver) (app : App F) (p : Program)
    (model : Model) (ms : Mesh) (is : List Nat) :
    ∀ (mesh : Mesh) (gl : GLState F), mesh.static = ms →
      (∀ i ∈ is, SubmeshDrawable app.scene p model ms i) →
      ∃ mesh1 gl1 cs, drawSubmeshes drv app p model is mesh gl = .ok (mesh1, gl1) ∧
        mesh1.static = ms ∧ gl1.calls = gl.calls ++ cs ∧
        cs.filter isMarker = is.filterMap (fun i => ms.submeshes[i]?.map submeshDraw) := by
  induction is with
  | nil =>
    intro mesh gl hms _
    exact ⟨mesh, gl, [], rfl, hms, by simp, rfl⟩
  | cons i rest ih =>
    intro mesh gl hms hdraw
    obtain ⟨S, mi, material, texture, hS, hlay, hmi, hmat, htex⟩ :=
      hdraw i (List.mem_cons_self _ _)
    obtain ⟨S1, hS1, hS1s⟩ := getElem?_of_static hms hS
    have hlay1 : ¬ LayoutMismatch p.shaderLayout S1.vertexBufferLayout := by
      rw [← hS1s] at hlay; exact hlay
    obtain ⟨vao, mesh1, gl1, cs1, hF, hst, hcalls, hfil⟩ :=
      FindVAO_returns drv gl mesh i p S1 hS1 hlay1
    have hms1 : mesh1.static = ms := hst.trans hms
    obtain ⟨S2, hS2, hS2s⟩ := getElem?_of_static hms1 hS
    obtain ⟨mesh2, gl2, cs2, hD, hst2, hcalls2, hfil2⟩ :=
      ih mesh1 (gl1.emit
        [.glBindVertexArray vao,
         .glActiveTexture .GL_TEXTURE0,
         .glBindTexture .GL_TEXTURE_2D texture.handle,
         .glUniform1i app.texturedMeshProgram_uTexture 0,
         .glDrawElements .GL_TRIANGLES S2.indices.length .GL_UNSIGNED_INT S2.indexOffset])
        hms1 (fun j hj => hdraw j (List.mem_cons_of_mem _ hj))
    have hmat1 : app.materials[mi]? = some material := hmat
    have htex1 : app.textures[material.albedoTextureIdx]? = some texture := htex
    refine ⟨mesh2, gl2, cs1 ++ ([.glBindVertexArray vao,
         .glActiveTexture .GL_TEXTURE0,
         .glBindTexture .GL_TEXTURE_2D texture.handle,
         .glUniform1i app.texturedMeshProgram_uTexture 0,
         .glDrawElements .GL_TRIANGLES S2.indices.length .GL_UNSIGNED_INT S2.indexOffset] ++ cs2),
      ?_, hst2, ?_, ?_⟩
    · simp only [drawSubmeshes, hF, bind, Except.bind, index_eq_ok hmi, index_eq_ok hmat1,
        index_eq_ok htex1, index_eq_ok hS2]
      exact hD
    · rw [hcalls2]
      simp only [GLState.emit, hcalls, List.append_assoc]
    · rw [List.filter_append, hfil, List.filter_append, hfil2, List.filterMap_cons, hS]
      have hdr : submeshDraw (F := F) S =
          .glDrawElements .GL_TRIANGLES S2.indices.length .GL_UNSIGNED_INT S2.indexOffset := by
        rw [← hS2s]; rfl
      simp [List.filter, isMarker, hdr]

theorem getElem?_of_scene_meshes {F : Type} {app : App F} {s : Scene} (hs : app.scene = s)
    {k : Nat} {ms : Mesh} (h : s.meshes[k]? = some ms) :
    ∃ mesh, app.meshes[k]? = some mesh ∧ mesh.static = ms := by
  subst hs
  simp only [App.scene, List.getElem?_map] at h
  cases hm : app.meshes[k]? with
  | none => rw [hm] at h; cases h
  | some mesh =>
    rw [hm] at h
    simp only [Option.map_some', Option.some.injEq] at h
    exact ⟨mesh, rfl, h⟩

theorem scene_set_mesh {F : Type} (app : App F) (k : Nat) (mesh mesh1 : Mesh)
    (hk : app.meshes[k]? = some mesh) (hst : mesh1.static = mesh.static) :
    ({ app with meshes := app.meshes.set k mesh1 } : App F).scene = app.scene := by
  simp only [App.scene, List.map_set]
  congr 1
  apply set_eq_self_of_getElem?
  rw [List.getElem?_map, hk, hst]
  rfl

theorem submeshesOf_eq {s : Scene} {modelIndex : Nat} {model : Model} {ms : Mesh}
    (h1 : s.models[modelIndex]? = some model) (h2 : s.meshes[model.meshIdx]? = some ms) :
    s.submeshesOf modelIndex = ms.submeshes := by
  unfold Scene.submeshesOf
  rw [h1]
  simp only
  rw [h2]

/-- The loop over the entities returns when every entity it visits is drawable;
it leaves the scene as it was and its marker calls are the draw calls of the
entities visited. -/
theorem drawEntities_returns {F : Type} (drv : Driver) (p : Program) (s : Scene)
    (es : List (Entity F)) :
    ∀ (app : App F) (gl : GLState F), app.scene = s →
      (∀ e ∈ es, EntityDrawable s p e.modelIndex) →
      ∃ app1 gl1 cs, drawEntities drv p es app gl = .ok (app1, gl1) ∧
        app1.scene = s ∧ gl1.calls = gl.calls ++ cs ∧
        cs.filter isMarker =
          es.flatMap (fun e => (s.submeshesOf e.modelIndex).map submeshDraw) := by
  induction es with
  | nil =>
    intro app gl hs _
    exact ⟨app, gl, [], rfl, hs, by simp, rfl⟩
  | cons it rest ih =>
    intro app gl hs hdraw
    obtain ⟨model, ms, hmodel, hms, hsub⟩ := hdraw it (List.mem_cons_self _ _)
    have hmodel1 : app.models[it.modelIndex]? = some model := by
      rw [← hs] at hmodel; exact hmodel
    obtain ⟨mesh, hmesh, hst⟩ := getElem?_of_scene_meshes hs hms
    have hlen : mesh.submeshes.length = ms.submeshes.length := by
      rw [← hst]; simp [Mesh.static]
    obtain ⟨mesh1, gl1, cs1, hD, hst1, hcalls1, hfil1⟩ :=
      drawSubmeshes_returns drv app p model ms (List.range mesh.submeshes.length) mesh
        (gl.emit [.glBindBufferRange .GL_UNIFORM_BUFFER (BINDING 1) app.localUniformBuffer.handle
          it.localParamsOffset it.localParamsSize]) hst
        (fun i hi => by
          rw [hs]
          exact hsub i (by rw [← hlen]; exact List.mem_range.1 hi))
    have hscene : ({ app with meshes := app.meshes.set model.meshIdx mesh1 } : App F).scene = s :=
      (scene_set_mesh app model.meshIdx mesh mesh1 hmesh (hst1.trans hst.symm)).trans hs
    obtain ⟨app2, gl2, cs2, hE, hs2, hcalls2, hfil2⟩ :=
      ih { app with meshes := app.meshes.set model.meshIdx mesh1 } gl1 hscene
        (fun e he => hdraw e (List.mem_cons_of_mem _ he))
    refine ⟨app2, gl2,
      [.glBindBufferRange .GL_UNIFORM_BUFFER (BINDING 1) app.localUniformBuffer.handle
          it.localParamsOffset it.localParamsSize] ++ (cs1 ++ cs2), ?_, hs2, ?_, ?_⟩
    · simp only [drawEntities, index_eq_ok hmodel1, index_eq_ok hmesh, bind, Except.bind, hD]
      exact hE
    · rw [hcalls2, hcalls1]
      simp only [GLState.emit, List.append_assoc]
    · rw [List.filter_append, List.filter_append, hfil1, hfil2, List.flatMap_cons,
        submeshesOf_eq hmodel hms, hlen, range_filterMap_getElem?]
      simp [List.filter, isMarker]

/-- The function `RenderGeometry` returns on a drawable scene; it leaves the scene as it was
and its marker calls are the draw calls of the scene. -/
theorem RenderGeometry_returns {F : Type} (drv : Driver) (gl : GLState F) (app : App F)
    (p : Program) (clippingPlane : Vec4 F) (s : Scene) (hs : app.scene = s)
    (hdraw : s.Drawable p) :
    ∃ app1 gl1 cs, RenderGeometry drv gl app p clippingPlane = .ok (app1, gl1) ∧
      app1.scene = s ∧ gl1.calls = gl.calls ++ cs ∧ cs.filter isMarker = geometryDraws s := by
  have hent : ∀ e ∈ app.entities, EntityDrawable s p e.modelIndex := by
    intro e he
    apply hdraw
    rw [← hs]
    exact List.mem_map.2 ⟨e, he, rfl⟩
  obtain ⟨app1, gl1, cs, hE, hs1, hcalls, hfil⟩ :=
    drawEntities_returns drv p s app.entities app
      (gl.emit
        [.glBindBufferRange .GL_UNIFORM_BUFFER (BINDING 0) app.localUniformBuffer.handle
          app.globalParamsOffset app.globalParamsSize,
         .glGetUniformLocation p.handle "plane",
         .glUniform4f (drv.uniformLocation p.handle "plane") clippingPlane.x clippingPlane.y
           clippingPlane.z clippingPlane.w]) hs hent
  refine ⟨app1, gl1,
    [.glBindBufferRange .GL_UNIFORM_BUFFER (BINDING 0) app.localUniformBuffer.handle
          app.globalParamsOffset app.globalParamsSize,
         .glGetUniformLocation p.handle "plane",
         .glUniform4f (drv.uniformLocation p.handle "plane") clippingPlane.x clippingPlane.y
           clippingPlane.z clippingPlane.w] ++ cs, hE, hs1, ?_, ?_⟩
  · rw [hcalls]
    simp only [GLState.emit, List.append_assoc]
  · rw [List.filter_append, hfil]
    have hg : geometryDraws (F := F) s =
        app.entities.flatMap (fun e => (s.submeshesOf e.modelIndex).map submeshDraw) := by
      unfold geometryDraws
      rw [← hs]
      simp only [App.scene, List.flatMap_map]
    rw [hg]
    simp [List.filter, isMarker]

theorem pushEntities_modelIndex {F : Type} (g : Glm F) (lay : PushLayout) (a : Nat)
    (projection view : Mat4 F) (es : List (Entity F)) :
    ∀ buffer : Buffer F,
      (pushEntities g lay a projection view buffer es).2.map Entity.modelIndex
        = es.map Entity.modelIndex := by
  induction es with
  | nil => intro buffer; rfl
  | cons it rest ih =>
    intro buffer
    simp only [pushEntities, List.map_cons]
    rw [ih]

/-- The function `UpdateEntityBuffer` leaves the scene as it was. -/
theorem UpdateEntityBuffer_scene {F : Type} (g : Glm F) (drv : Driver) (lay : PushLayout)
    (gl : GLState F) (app : App F) (mouse : Bool) :
    (UpdateEntityBuffer g drv lay gl app mouse).1.scene = app.scene := by
  cases mouse <;>
    simp [UpdateEntityBuffer, App.scene, MapBuffer, processInput, pushEntities_modelIndex,
      pushEntities_handle, pushLights_handle, PushVec3, PushUInt, PushAlignedData_handle]

theorem MarkersBetween.refl {F : Type} (gl : GLState F) : MarkersBetween gl gl [] :=
  ⟨[], by simp, rfl⟩

theorem MarkersBetween.trans {F : Type} {a b c : GLState F} {m1 m2 : List (GLCall F)}
    (h1 : MarkersBetween a b m1) (h2 : MarkersBetween b c m2) :
    MarkersBetween a c (m1 ++ m2) := by
  obtain ⟨cs1, hc1, hf1⟩ := h1
  obtain ⟨cs2, hc2, hf2⟩ := h2
  exact ⟨cs1 ++ cs2, by rw [hc2, hc1, List.append_assoc], by rw [List.filter_append, hf1, hf2]⟩

theorem MarkersBetween.emit {F : Type} (gl : GLState F) (cs : List (GLCall F)) :
    MarkersBetween gl (gl.emit cs) (cs.filter isMarker) :=
  ⟨cs, rfl, rfl⟩

theorem MarkersBetween.of_eq {F : Type} {a b : GLState F} {m1 m2 : List (GLCall F)}
    (h : MarkersBetween a b m1) (hm : m1 = m2) : MarkersBetween a b m2 := hm ▸ h

theorem UpdateEntityBuffer_markers {F : Type} (g : Glm F) (drv : Driver) (lay : PushLayout)
    (gl : GLState F) (app : App F) (mouse : Bool) :
    MarkersBetween gl (UpdateEntityBuffer g drv lay gl app mouse).2
      ((if mouse then inputCalls else []) ++ updateCalls app.scene) := by
  rw [UpdateEntityBuffer_calls]
  refine (MarkersBetween.emit gl _).of_eq ?_
  cases mouse <;> simp [List.filter, isMarker, inputCalls, updateCalls, App.scene]

theorem RenderGeometry_markers {F : Type} (drv : Driver) (gl : GLState F) (app : App F)
    (p : Program) (clippingPlane : Vec4 F) (s : Scene) (hs : app.scene = s)
    (hdraw : s.Drawable p) :
    ∃ app1 gl1, RenderGeometry drv gl app p clippingPlane = .ok (app1, gl1) ∧
      app1.scene = s ∧ MarkersBetween gl gl1 (geometryDraws s) := by
  obtain ⟨app1, gl1, cs, h1, h2, h3, h4⟩ :=
    RenderGeometry_returns drv gl app p clippingPlane s hs hdraw
  exact ⟨app1, gl1, h1, h2, cs, h3, h4⟩

theorem RenderGeometry_elim {F : Type} {drv : Driver} {gl : GLState F} {app : App F}
    {p : Program} {clippingPlane : Vec4 F} {r : Except Fault (App F × GLState F)}
    (h : RenderGeometry drv gl app p clippingPlane = r) {s : Scene} (hs : app.scene = s)
    (hdraw : s.Drawable p) :
    ∃ app1 gl1, r = .ok (app1, gl1) ∧ app1.scene = s ∧
      MarkersBetween gl gl1 (geometryDraws s) := by
  obtain ⟨app1, gl1, h1, h2, h3⟩ := RenderGeometry_markers drv gl app p clippingPlane s hs hdraw
  exact ⟨app1, gl1, h ▸ h1, h2, h3⟩

theorem exampleApp_drawable : exampleApp.scene.Drawable (programPosUv 22) := by
  intro modelIndex hmi
  have h0 : modelIndex = 0 := by
    simp [App.scene, exampleApp] at hmi
    exact hmi
  subst h0
  refine ⟨⟨0, [0]⟩, triangleMesh.static, rfl, rfl, ?_⟩
  intro i hi
  have hi0 : i = 0 := by
    simp [Mesh.static, triangleMesh] at hi
    exact hi
  subst hi0
  exact ⟨triangleSubMesh, 0, ⟨0⟩, ⟨31⟩, rfl, by decide, rfl, rfl, rfl⟩

theorem drawEntities_camera {F : Type} (drv : Driver) (p : Program) (es : List (Entity F)) :
    ∀ (app : App F) (gl : GLState F) (r : App F × GLState F),
      drawEntities drv p es app gl = .ok r →
      r.1.view = app.view ∧ r.1.sceneCam = app.sceneCam ∧
        r.1.WaterWorldMatrix = app.WaterWorldMatrix := by
  induction es with
  | nil =>
    intro app gl r h
    simp only [drawEntities, Except.ok.injEq] at h
    subst h
    exact ⟨rfl, rfl, rfl⟩
  | cons it rest ih =>
    intro app gl r h
    unfold drawEntities at h
    simp only [bind, Except.bind] at h
    split at h
    · cases h
    · split at h
      · cases h
      · split at h
        · cases h
        · have hh := ih _ _ r h
          exact hh

theorem RenderGeometry_camera {F : Type} (drv : Driver) (gl : GLState F) (app : App F)
    (p : Program) (clippingPlane : Vec4 F) (r : App F × GLState F)
    (h : RenderGeometry drv gl app p clippingPlane = .ok r) :
    r.1.view = app.view ∧ r.1.sceneCam = app.sceneCam ∧
      r.1.WaterWorldMatrix = app.WaterWorldMatrix :=
  drawEntities_camera drv p app.entities app _ r h

theorem UpdateEntityBuffer_view {F : Type} (g : Glm F) (drv : Driver) (lay : PushLayout)
    (gl : GLState F) (app : App F) (mouse : Bool) :
    (UpdateEntityBuffer g drv lay gl app mouse).1.view =
      g.lookAt (UpdateEntityBuffer g drv lay gl app mouse).1.sceneCam.cameraPos
        (Vec3.add g (UpdateEntityBuffer g drv lay gl app mouse).1.sceneCam.cameraPos
          (UpdateEntityBuffer g drv lay gl app mouse).1.sceneCam.cameraFront)
        (UpdateEntityBuffer g drv lay gl app mouse).1.sceneCam.cameraUp := by
  cases mouse <;> rfl

theorem UpdateEntityBuffer_sceneCam {F : Type} (g : Glm F) (drv : Driver) (lay : PushLayout)
    (gl : GLState F) (app : App F) :
    (UpdateEntityBuffer g drv lay gl app false).1.sceneCam = app.sceneCam ∧
    (UpdateEntityBuffer g drv lay gl app false).1.WaterWorldMatrix = app.WaterWorldMatrix := by
  exact ⟨rfl, rfl⟩

theorem glDrawBuffers_ok {F : Type} (gl : GLState F) (n : Nat) (bufs : List GLuint)
    (h : n ≤ bufs.length) :
    glDrawBuffers gl n bufs = .ok (gl.emit [.glDrawBuffers n bufs]) := by
  unfold glDrawBuffers
  rw [if_pos h]

theorem RenderDeferredReflection_elim {F : Type} {g : Glm F} {drv : Driver} {lay : PushLayout}
    {gl : GLState F} {app : App F} {r : Except Fault (Program × App F × GLState F)}
    (hr : RenderDeferredReflection g drv lay gl app = r) {s : Scene} (hs : app.scene = s)
    {D : Program} (hD : s.programs[s.renderToFrameBufferShader]? = some D)
    (hdraw : s.Drawable D)
    (hrefl : s.waterBuffers.fboReflection.colorAttachment.length ≤ 1) :
    ∃ app1 gl1, r = .ok (D, app1, gl1) ∧ app1.scene = s ∧
      MarkersBetween gl gl1
        ([.glBindFramebuffer .GL_FRAMEBUFFER s.waterBuffers.fboReflection.fbHandle,
          .glUseProgram D.handle] ++ updateCalls s ++ geometryDraws s ++
         [.glUseProgram 0, .glBindFramebuffer .GL_FRAMEBUFFER 0]) := by
  subst hs
  have hD1 : index app.programs app.renderToFrameBufferShader = .ok D := index_eq_ok hD
  have hdb := fun gl0 : GLState F =>
    glDrawBuffers_ok gl0 app.waterBuffers.fboReflection.colorAttachment.length
      [app.waterBuffers.fboReflection.fbHandle] hrefl
  unfold RenderDeferredReflection at hr
  simp only [hdb, hD1, bind, Except.bind, pure, Except.pure] at hr
  split at hr
  · rename_i e heq
    obtain ⟨a1, g1, hr1, -, -⟩ :=
      RenderGeometry_elim heq (by rw [UpdateEntityBuffer_scene]; rfl) hdraw
    cases hr1
  · rename_i v heq
    obtain ⟨a1, g1, hr1, hs1, hm1⟩ :=
      RenderGeometry_elim heq (by rw [UpdateEntityBuffer_scene]; rfl) hdraw
    simp only [Except.ok.injEq] at hr1
    subst hr1
    subst hr
    refine ⟨_, _, rfl, hs1, ?_⟩
    refine (((((((MarkersBetween.emit gl _).trans (MarkersBetween.emit _ _)).trans
      (MarkersBetween.emit _ _)).trans (MarkersBetween.emit _ _)).trans
      (UpdateEntityBuffer_markers _ _ _ _ _ _)).trans hm1).trans
      (MarkersBetween.emit _ _)).of_eq ?_
    simp [List.filter, isMarker, App.scene, updateCalls]

theorem RenderDeferredReflection_view_of_ok {F : Type} {g : Glm F} {drv : Driver}
    {lay : PushLayout} {gl : GLState F} {app : App F} {D : Program} {app1 : App F}
    {gl1 : GLState F} (hr : RenderDeferredReflection g drv lay gl app = .ok (D, app1, gl1)) :
    app1.view = g.lookAt (mirroredCameraPos g app)
        (Vec3.add g (mirroredCameraPos g app) app.sceneCam.cameraFront) app.sceneCam.cameraUp ∧
      app1.sceneCam.cameraFront = app.sceneCam.cameraFront ∧
      app1.sceneCam.cameraUp = app.sceneCam.cameraUp ∧
      app1.sceneCam.cameraPos.x = app.sceneCam.cameraPos.x ∧
      app1.sceneCam.cameraPos.z = app.sceneCam.cameraPos.z := by
  unfold RenderDeferredReflection at hr
  simp only [bind, Except.bind, pure, Except.pure] at hr
  split at hr
  · cases hr
  · split at hr
    · cases hr
    · split at hr
      · cases hr
      · rename_i v heq
        obtain ⟨hv, hc, -⟩ := RenderGeometry_camera _ _ _ _ _ _ heq
        simp only [Except.ok.injEq, Prod.mk.injEq] at hr
        obtain ⟨-, hr, -⟩ := hr
        subst hr
        refine ⟨?_, ?_, ?_, ?_, ?_⟩
        · show v.1.view = _
          rw [hv, UpdateEntityBuffer_view]
          rfl
        · show v.1.sceneCam.cameraFront = _
          rw [hc]; rfl
        · show v.1.sceneCam.cameraUp = _
          rw [hc]; rfl
        · show v.1.sceneCam.cameraPos.x = _
          rw [hc]; rfl
        · show v.1.sceneCam.cameraPos.z = _
          rw [hc]; rfl

/-- C16. The view matrix that `UpdateEntityBuffer` builds is `lookAt` of the
camera's `cameraPos`, `cameraPos + cameraFront` and `cameraUp` as they are when
it is built, and `UpdateEntityBuffer(false)` builds the same view matrix for any
two states whose cameras agree on these three vectors. On a scene that can be
drawn and whose reflection target has at most one colour attachment (the one
`ConfigureWaterBuffer` makes; with more the section's `glDrawBuffers` call reads
past its array), the reflection section of `Render` returns, and the view matrix
it leaves
is built from the mirrored position, which differs from `cameraPos` in `y` only,
and from the `cameraFront` and `cameraUp` of the un-mirrored camera; the camera it
leaves has the same `cameraFront`, `cameraUp`, `cameraPos.x` and `cameraPos.z`;
and whatever value `pitch` has, the section leaves the same view matrix. -/
theorem RenderDeferredReflection_view {F : Type} (g : Glm F) (drv : Driver) (lay : PushLayout)
    (gl : GLState F) (app : App F) (D : Program)
    (hD : app.programs[app.renderToFrameBufferShader]? = some D)
    (hdraw : app.scene.Drawable D)
    (hrefl : app.waterBuffers.fboReflection.colorAttachment.length ≤ 1) :
    (∀ (drv1 : Driver) (lay1 : PushLayout) (gl0 : GLState F) (app0 : App F) (mouse : Bool),
      (UpdateEntityBuffer g drv1 lay1 gl0 app0 mouse).1.view =
        g.lookAt (UpdateEntityBuffer g drv1 lay1 gl0 app0 mouse).1.sceneCam.cameraPos
          (Vec3.add g (UpdateEntityBuffer g drv1 lay1 gl0 app0 mouse).1.sceneCam.cameraPos
            (UpdateEntityBuffer g drv1 lay1 gl0 app0 mouse).1.sceneCam.cameraFront)
          (UpdateEntityBuffer g drv1 lay1 gl0 app0 mouse).1.sceneCam.cameraUp) ∧
    (∀ (drv1 drv2 : Driver) (lay1 lay2 : PushLayout) (gl1 gl2 : GLState F) (app1 app2 : App F),
      app1.sceneCam.cameraPos = app2.sceneCam.cameraPos →
      app1.sceneCam.cameraFront = app2.sceneCam.cameraFront →
      app1.sceneCam.cameraUp = app2.sceneCam.cameraUp →
      (UpdateEntityBuffer g drv1 lay1 gl1 app1 false).1.view =
        (UpdateEntityBuffer g drv2 lay2 gl2 app2 false).1.view) ∧
    (mirroredCameraPos g app).x = app.sceneCam.cameraPos.x ∧
    (mirroredCameraPos g app).z = app.sceneCam.cameraPos.z ∧
    ∃ app1 gl1,
      RenderDeferredReflection g drv lay gl app = .ok (D, app1, gl1) ∧
      app1.view = g.lookAt (mirroredCameraPos g app)
        (Vec3.add g (mirroredCameraPos g app) app.sceneCam.cameraFront) app.sceneCam.cameraUp ∧
      app1.sceneCam.cameraFront = app.sceneCam.cameraFront ∧
      app1.sceneCam.cameraUp = app.sceneCam.cameraUp ∧
      app1.sceneCam.cameraPos.x = app.sceneCam.cameraPos.x ∧
      app1.sceneCam.cameraPos.z = app.sceneCam.cameraPos.z ∧
      ∀ pitch : F, ∃ app2 gl2,
        RenderDeferredReflection g drv lay gl
            { app with sceneCam := { app.sceneCam with pitch := pitch } } = .ok (D, app2, gl2) ∧
          app2.view = app1.view := by
  refine ⟨fun drv1 lay1 gl0 app0 mouse => UpdateEntityBuffer_view g drv1 lay1 gl0 app0 mouse,
    ?_, rfl, rfl, ?_⟩
  · intro drv1 drv2 lay1 lay2 gl1 gl2 app1 app2 h1 h2 h3
    rw [UpdateEntityBuffer_view, UpdateEntityBuffer_view,
      (UpdateEntityBuffer_sceneCam g drv1 lay1 gl1 app1).1,
      (UpdateEntityBuffer_sceneCam g drv2 lay2 gl2 app2).1, h1, h2, h3]
  · obtain ⟨app1, gl1, hr, -, -⟩ :=
      RenderDeferredReflection_elim (g := g) (r := RenderDeferredReflection g drv lay gl app)
        rfl rfl hD hdraw hrefl
    obtain ⟨hv, hf, hu, hx, hz⟩ := RenderDeferredReflection_view_of_ok hr
    refine ⟨app1, gl1, hr, hv, hf, hu, hx, hz, ?_⟩
    intro pitch
    obtain ⟨app2, gl2, hr2, -, -⟩ :=
      RenderDeferredReflection_elim (g := g)
        (r := RenderDeferredReflection g drv lay gl
          { app with sceneCam := { app.sceneCam with pitch := pitch } })
        rfl rfl hD hdraw hrefl
    obtain ⟨hv2, -, -, -, -⟩ := RenderDeferredReflection_view_of_ok hr2
    exact ⟨app2, gl2, hr2, by rw [hv2, hv]; rfl⟩

/-- C16, witness: the example scene, camera at `(1, 2, 3)` over the water at
height `-2`; the reflection view is built from the position `(1, -6, 3)`. -/
theorem RenderDeferredReflection_view_witness :
    exampleApp.programs[exampleApp.renderToFrameBufferShader]? = some (programPosUv 22) ∧
    mirroredCameraPos exampleGlm exampleApp = ⟨1, -6, 3⟩ ∧
    ∃ app1 gl1,
      RenderDeferredReflection exampleGlm exampleDriver .packed exampleGL exampleApp =
        .ok (programPosUv 22, app1, gl1) ∧
      app1.view = exampleGlm.lookAt (mirroredCameraPos exampleGlm exampleApp)
        (Vec3.add exampleGlm (mirroredCameraPos exampleGlm exampleApp)
          exampleApp.sceneCam.cameraFront) exampleApp.sceneCam.cameraUp ∧
      app1.sceneCam.cameraFront = exampleApp.sceneCam.cameraFront ∧
      app1.sceneCam.cameraUp = exampleApp.sceneCam.cameraUp ∧
      app1.sceneCam.cameraPos.x = exampleApp.sceneCam.cameraPos.x ∧
      app1.sceneCam.cameraPos.z = exampleApp.sceneCam.cameraPos.z ∧
      ∀ pitch : Int, ∃ app2 gl2,
        RenderDeferredReflection exampleGlm exampleDriver .packed exampleGL
            { exampleApp with sceneCam := { exampleApp.sceneCam with pitch := pitch } } =
          .ok (programPosUv 22, app2, gl2) ∧
          app2.view = app1.view :=
  ⟨rfl, rfl,
   (RenderDeferredReflection_view exampleGlm exampleDriver .packed exampleGL exampleApp
      (programPosUv 22) rfl exampleApp_drawable (by decide)).2.2.2.2⟩

theorem RenderDeferredReflection_camera_of_ok {F : Type} {g : Glm F} {drv : Driver}
    {lay : PushLayout} {gl : GLState F} {app : App F} {D : Program} {app1 : App F}
    {gl1 : GLState F} (hr : RenderDeferredReflection g drv lay gl app = .ok (D, app1, gl1)) :
    app1.sceneCam.cameraPos.y =
        g.add (mirroredCameraPos g app).y
          (g.mul (g.ofInt 2) (g.sub app.sceneCam.cameraPos.y (GetHeight app.WaterWorldMatrix))) ∧
      app1.sceneCam.pitch = g.neg (g.neg app.sceneCam.pitch) := by
  unfold RenderDeferredReflection at hr
  simp only [bind, Except.bind, pure, Except.pure] at hr
  split at hr
  · cases hr
  · split at hr
    · cases hr
    · split at hr
      · cases hr
      · rename_i v heq
        obtain ⟨-, hc, -⟩ := RenderGeometry_camera _ _ _ _ _ _ heq
        simp only [Except.ok.injEq, Prod.mk.injEq] at hr
        obtain ⟨-, hr, -⟩ := hr
        subst hr
        constructor
        · show g.add v.1.sceneCam.cameraPos.y _ = _
          rw [hc]; rfl
        · show g.neg v.1.sceneCam.pitch = _
          rw [hc]; rfl

set_option maxRecDepth 20000 in
/-- The rounding model on values known from IEEE 754 hardware: `1.0f / 3`,
`0.1f * 0.1f`, the overflow of `FLT_MAX + FLT_MAX`, two ties, a subnormal product
and `(float)16777217`. -/
theorem Binary32.known_values :
    Binary32.div ⟨0x3f800000⟩ (Binary32.ofInt 3) = ⟨0x3eaaaaab⟩ ∧
    Binary32.mul ⟨0x3dcccccd⟩ ⟨0x3dcccccd⟩ = ⟨0x3c23d70b⟩ ∧
    Binary32.add ⟨0x7f7fffff⟩ ⟨0x7f7fffff⟩ = ⟨0x7f800000⟩ ∧
    Binary32.add ⟨0x3f800000⟩ ⟨0x33800000⟩ = ⟨0x3f800000⟩ ∧
    Binary32.add ⟨0x3f800001⟩ ⟨0x33800000⟩ = ⟨0x3f800002⟩ ∧
    Binary32.mul ⟨0x00000003⟩ ⟨0x3f000000⟩ = ⟨0x00000002⟩ ∧
    Binary32.ofInt 16777217 = ⟨0x4b800000⟩ ∧
    Binary32.sub ⟨0x3dcccccd⟩ ⟨0xc0000000⟩ = ⟨0x40066666⟩ := by
  decide

theorem floatApp_drawable : floatApp.scene.Drawable (programPosUv 22) := by
  have h : floatApp.scene = exampleApp.scene := rfl
  rw [h]
  exact exampleApp_drawable

set_option maxRecDepth 20000 in
theorem floatApp_heights :
    Binary32.sub ⟨0x3dcccccd⟩
        (Binary32.mul (Binary32.ofInt 2) (Binary32.sub ⟨0x3dcccccd⟩ ⟨0xc0000000⟩)) =
      ⟨0xc0833333⟩ ∧
    Binary32.add ⟨0xc0833333⟩
        (Binary32.mul (Binary32.ofInt 2) (Binary32.sub ⟨0x3dcccccd⟩ ⟨0xc0000000⟩)) =
      ⟨0x3dccccc0⟩ ∧
    Binary32.neg (Binary32.neg ⟨0xc1700000⟩) = ⟨0xc1700000⟩ := by
  decide

/-- C5, at the failing input: the example scene over `float`, camera height
`c = 0.1f` (`0x3dcccccd`), water height `h = -2.0f`, with IEEE 754 binary32
arithmetic and any implementation of the glm functions, any driver and any state
of the process. The reflection section returns; the height it gives the camera
for the pass is `0xc0833333` (`-4.0999999`), the pitch is restored, and the height
it leaves is `0x3dccccc0` (`0.099999905`), 13 units in the last place below the
height before the pass. -/
theorem RenderDeferredReflection_height_not_restored (glm : Glm Binary32) (drv : Driver)
    (lay : PushLayout) (gl : GLState Binary32) :
    floatApp.sceneCam.cameraPos.y = ⟨0x3dcccccd⟩ ∧
    GetHeight floatApp.WaterWorldMatrix = ⟨0xc0000000⟩ ∧
    (mirroredCameraPos (binary32 glm) floatApp).y = ⟨0xc0833333⟩ ∧
    ∃ app1 gl1,
      RenderDeferredReflection (binary32 glm) drv lay gl floatApp =
        .ok (programPosUv 22, app1, gl1) ∧
      app1.sceneCam.pitch = floatApp.sceneCam.pitch ∧
      app1.sceneCam.cameraPos.y = ⟨0x3dccccc0⟩ ∧
      app1.sceneCam.cameraPos.y ≠ floatApp.sceneCam.cameraPos.y := by
  have hm : (mirroredCameraPos (binary32 glm) floatApp).y = ⟨0xc0833333⟩ := by
    simp only [mirroredCameraPos, binary32, floatApp, GetHeight, waterMatrix32]
    exact floatApp_heights.1
  refine ⟨rfl, rfl, hm, ?_⟩
  obtain ⟨app1, gl1, hr, -, -⟩ :=
    RenderDeferredReflection_elim (g := binary32 glm)
      (r := RenderDeferredReflection (binary32 glm) drv lay gl floatApp)
      rfl rfl (D := programPosUv 22) rfl floatApp_drawable (by decide)
  obtain ⟨hy, hp⟩ := RenderDeferredReflection_camera_of_ok hr
  have hy1 : app1.sceneCam.cameraPos.y = ⟨0x3dccccc0⟩ := by
    rw [hy, hm]
    simp only [binary32, floatApp, GetHeight, waterMatrix32]
    exact floatApp_heights.2.1
  refine ⟨app1, gl1, hr, ?_, hy1, ?_⟩
  · rw [hp]
    simp only [binary32, floatApp]
    exact floatApp_heights.2.2
  · rw [hy1]
    decide

/-! ## CreateProgramFromSource (C9) and LoadProgram (C10) -/

theorem createdShaders_append {F : Type} (xs ys : List (GLCall F)) :
    createdShaders (xs ++ ys) = createdShaders xs ++ createdShaders ys := by
  induction xs with
  | nil => rfl
  | cons c rest ih => cases c <;> simp [createdShaders, ih]

theorem shaderSources_append {F : Type} (xs ys : List (GLCall F)) :
    shaderSources (xs ++ ys) = shaderSources xs ++ shaderSources ys := by
  induction xs with
  | nil => rfl
  | cons c rest ih => cases c <;> simp [shaderSources, ih]

theorem String_join_four (a b c d : String) : String.join [a, b, c, d] = a ++ b ++ c ++ d := by
  simp [String.join]

theorem sprintfShaderNameDefine_fits (shaderName : String) (hfit : shaderName.utf8ByteSize ≤ 118) :
    sprintfShaderNameDefine shaderName = .ok ("#define " ++ shaderName ++ "\n") := by
  unfold sprintfShaderNameDefine
  rw [if_pos (by omega)]

/-- With a name that fits the name define, `CreateProgramFromSource` returns. -/
theorem CreateProgramFromSource_returns {F : Type} (drv : Driver) (gl : GLState F)
    (programSource shaderName : String) (hfit : shaderName.utf8ByteSize ≤ 118) :
    ∃ programHandle gl1,
      CreateProgramFromSource drv gl programSource shaderName = .ok (programHandle, gl1) := by
  unfold CreateProgramFromSource
  rw [sprintfShaderNameDefine_fits shaderName hfit]
  exact ⟨_, _, rfl⟩

/-- C9 (amended). For every shader name of at most 118 bytes and every source
text, whatever the driver answers, `CreateProgramFromSource` returns, it creates
a vertex and then a fragment shader object, and the source handed to the compiler
for the vertex stage is `#version 430\n`, `#define <name>\n`, `#define VERTEX\n`
and the source text, in this order, and for the fragment stage the same with
`#define FRAGMENT\n` in place of the `VERTEX` define. -/
theorem CreateProgramFromSource_sources {F : Type} (drv : Driver) (gl : GLState F)
    (programSource shaderName : String) (hfit : shaderName.utf8ByteSize ≤ 118) :
    ∃ programHandle gl1 calls,
      CreateProgramFromSource drv gl programSource shaderName = .ok (programHandle, gl1) ∧
      gl1.calls = gl.calls ++ calls ∧
      createdShaders calls =
        [(.GL_VERTEX_SHADER, drv.genName gl.issued),
         (.GL_FRAGMENT_SHADER, drv.genName (gl.issued + 1))] ∧
      shaderSources calls =
        [(drv.genName gl.issued,
            "#version 430\n" ++ ("#define " ++ shaderName ++ "\n") ++ "#define VERTEX\n"
              ++ programSource),
         (drv.genName (gl.issued + 1),
            "#version 430\n" ++ ("#define " ++ shaderName ++ "\n") ++ "#define FRAGMENT\n"
              ++ programSource)] := by
  unfold CreateProgramFromSource
  rw [sprintfShaderNameDefine_fits shaderName hfit]
  simp only [bind, Except.bind, pure, Except.pure]
  refine ⟨_, _, _, rfl, rfl, ?_, ?_⟩
  · cases drv.shaderCompiled (drv.genName gl.issued) <;>
      cases drv.shaderCompiled (drv.genName (gl.issued + 1)) <;>
      cases drv.programLinked (drv.genName (gl.issued + 2)) <;>
      simp [createdShaders_append, createdShaders]
  · cases drv.shaderCompiled (drv.genName gl.issued) <;>
      cases drv.shaderCompiled (drv.genName (gl.issued + 1)) <;>
      cases drv.programLinked (drv.genName (gl.issued + 2)) <;>
      simp [shaderSources_append, shaderSources, String_join_four, versionString,
        vertexShaderDefine, fragmentShaderDefine]

/-- C9, witness: the name `RENDER_TO_FB`. -/
theorem CreateProgramFromSource_sources_witness :
    ("RENDER_TO_FB".utf8ByteSize ≤ 118) ∧
    ∃ programHandle gl1 calls,
      CreateProgramFromSource exampleDriver exampleGL "void main() {}" "RENDER_TO_FB"
        = .ok (programHandle, gl1) ∧
      gl1.calls = exampleGL.calls ++ calls ∧
      createdShaders calls = [(.GL_VERTEX_SHADER, 1), (.GL_FRAGMENT_SHADER, 2)] ∧
      shaderSources calls =
        [(1, "#version 430\n#define RENDER_TO_FB\n#define VERTEX\nvoid main() {}"),
         (2, "#version 430\n#define RENDER_TO_FB\n#define FRAGMENT\nvoid main() {}")] :=
  ⟨by decide,
   CreateProgramFromSource_sources exampleDriver exampleGL "void main() {}" "RENDER_TO_FB"
     (by decide)⟩

theorem utf8ByteSize_replicate_A (n : Nat) :
    (String.mk (List.replicate n 'A')).utf8ByteSize = n := by
  induction n with
  | zero => rfl
  | succ k ih =>
    have h : (String.mk (List.replicate (k + 1) 'A')).utf8ByteSize
        = (String.mk (List.replicate k 'A')).utf8ByteSize + 1 := rfl
    rw [h, ih]

/-- C9, counterexample: with a shader name of 119 bytes the text of the name
define does not fit `shaderNameDefine[128]`; `sprintf` writes past the end of the
array and no source text is defined. -/
theorem CreateProgramFromSource_long_name :
    longShaderName.utf8ByteSize = 119 ∧
    CreateProgramFromSource exampleDriver exampleGL "void main() {}" longShaderName
      = .error .bufferOverflow ∧
    ¬ ∃ programHandle gl1,
      CreateProgramFromSource exampleDriver exampleGL "void main() {}" longShaderName
        = .ok (programHandle, gl1) := by
  have h : longShaderName.utf8ByteSize = 119 := utf8ByteSize_replicate_A 119
  suffices hs : CreateProgramFromSource exampleDriver exampleGL "void main() {}" longShaderName
      = .error .bufferOverflow by
    refine ⟨h, hs, ?_⟩
    rintro ⟨p, gl1, hp⟩
    rw [hs] at hp
    cases hp
  have h1 : sprintfShaderNameDefine longShaderName = .error .bufferOverflow := by
    unfold sprintfShaderNameDefine
    rw [h]
    rfl
  unfold CreateProgramFromSource
  rw [h1]
  rfl

/-- C10. `LoadProgram` appends exactly one program to `app->programs` and returns
its index, the previous length of the list; every program that was in the list
keeps its index and contents and nothing else of `App` changes, whatever the
driver answers for the compile and link statuses. (The program name fits the
name define of `CreateProgramFromSource`, and the length fits the `u32` that is
returned.) -/
theorem LoadProgram_appends_one {F : Type} (drv : Driver) (gl : GLState F) (app : App F)
    (filepath programName : String) (hfit : programName.utf8ByteSize ≤ 118)
    (hlen : app.programs.length < 2 ^ 32) :
    ∃ program gl1,
      LoadProgram drv gl app filepath programName =
        .ok (app.programs.length, { app with programs := app.programs ++ [program] }, gl1) ∧
      (app.programs ++ [program]).length = app.programs.length + 1 ∧
      (app.programs ++ [program])[app.programs.length]? = some program ∧
      (∀ i, i < app.programs.length → (app.programs ++ [program])[i]? = app.programs[i]?) ∧
      program.filepath = filepath ∧ program.programName = programName := by
  obtain ⟨h, gl1, hc⟩ :=
    CreateProgramFromSource_returns drv gl (drv.readTextFile filepath) programName hfit
  unfold LoadProgram
  simp only [hc, bind, Except.bind, pure, Except.pure]
  let program : Program :=
    { handle := h
      filepath := filepath
      programName := programName
      lastWriteTimestamp := drv.fileLastWriteTimestamp filepath
      shaderLayout :=
        { attributes := (introspectAttributes (F := F) drv h 0 (drv.activeAttributes h)).2 } }
  refine ⟨program,
    (gl1.emit [.glGetProgramiv h .GL_ACTIVE_ATTRIBUTES]).emit
      (introspectAttributes drv h 0 (drv.activeAttributes h)).1, ?_, ?_, ?_, ?_, rfl, rfl⟩
  · simp only [List.length_append, List.length_singleton, Nat.add_sub_cancel]
    rw [Nat.mod_eq_of_lt hlen]
  · simp
  · simp
  · intro i hi
    simp [List.getElem?_append_left hi]

/-- C10, witness: a fifth program loaded into the example scene, with a driver
under which compiling and linking succeed. -/
theorem LoadProgram_appends_one_witness :
    ∃ program gl1,
      LoadProgram exampleDriver exampleGL exampleApp "WATER_SHADER.glsl" "WATER_SHADER" =
        .ok (4, { exampleApp with programs := exampleApp.programs ++ [program] }, gl1) ∧
      (exampleApp.programs ++ [program]).length = 4 + 1 ∧
      (exampleApp.programs ++ [program])[4]? = some program ∧
      (∀ i, i < 4 → (exampleApp.programs ++ [program])[i]? = exampleApp.programs[i]?) ∧
      program.filepath = "WATER_SHADER.glsl" ∧ program.programName = "WATER_SHADER" :=
  LoadProgram_appends_one exampleDriver exampleGL exampleApp "WATER_SHADER.glsl" "WATER_SHADER"
    (by decide) (by decide)

theorem introspectAttributes_attributes {F : Type} (drv : Driver) (handle : GLuint)
    (attrs : List ActiveAttrib) :
    ∀ i, (introspectAttributes (F := F) drv handle i attrs).2 =
      attrs.map (fun a =>
        { location := toU8 (drv.attribLocation handle a.name), componentCount := toU8 a.size }) := by
  induction attrs with
  | nil => intro i; rfl
  | cons a rest ih =>
    intro i
    simp only [introspectAttributes, List.map_cons, ih (i + 1)]

theorem toU8_of_range (i : Int) (h0 : 0 ≤ i) (h1 : i < 256) : (toU8 i : Int) = i := by
  unfold toU8
  rw [Int.emod_eq_of_lt h0 h1]
  exact Int.toNat_of_nonneg h0

/-- C11, counterexample. A vertex shader that reads `gl_VertexID` and one
attribute `aPosition`: the driver reports two active attributes, with the
locations `-1` and `0`; `LoadProgram` stores the locations `255` and `0`, and
`255` is not a location the driver reports for an active attribute. -/
theorem LoadProgram_location_not_reported :
    ∃ i app1 gl1 program,
      LoadProgram builtinAttributeDriver exampleGL exampleApp "shaders.glsl" "SHOW_ID" =
        .ok (i, app1, gl1) ∧
      app1.programs[i]? = some program ∧
      reportedLocations builtinAttributeDriver program.handle = [-1, 0] ∧
      program.shaderLayout.attributes.map VertexShaderAttribute.location = [255, 0] ∧
      ¬ ∀ s ∈ program.shaderLayout.attributes,
          (s.location : Int) ∈ reportedLocations builtinAttributeDriver program.handle := by
  refine ⟨_, _, _, _, rfl, rfl, rfl, rfl, ?_⟩
  intro h
  have h255 := h ⟨255, 1⟩ (by decide)
  revert h255
  decide

/-- C11 (amended). For every program whose name fits the name define, whatever
the driver answers, `LoadProgram` returns and the program it appends has a
shader layout with one entry per active vertex attribute the driver reports for
the program's handle, in the driver's order; the location of each entry is the
location the driver reports for that attribute, converted to `u8`; when the
reported locations are all in `0..255`, the stored locations are the reported
ones, so every stored location is a location the driver reports for an active
attribute. -/
theorem LoadProgram_shaderLayout {F : Type} (drv : Driver) (gl : GLState F) (app : App F)
    (filepath programName : String) (hfit : programName.utf8ByteSize ≤ 118) :
    ∃ i program gl1,
      LoadProgram drv gl app filepath programName =
        .ok (i, { app with programs := app.programs ++ [program] }, gl1) ∧
      program.shaderLayout.attributes.length = (drv.activeAttributes program.handle).length ∧
      program.shaderLayout.attributes.map VertexShaderAttribute.location =
        (reportedLocations drv program.handle).map toU8 ∧
      ((∀ l ∈ reportedLocations drv program.handle, 0 ≤ l ∧ l < 256) →
        program.shaderLayout.attributes.map (fun s => (s.location : Int)) =
          reportedLocations drv program.handle ∧
        ∀ s ∈ program.shaderLayout.attributes,
          (s.location : Int) ∈ reportedLocations drv program.handle) := by
  obtain ⟨h, gl1, hc⟩ :=
    CreateProgramFromSource_returns drv gl (drv.readTextFile filepath) programName hfit
  unfold LoadProgram
  simp only [hc, bind, Except.bind, pure, Except.pure]
  let program : Program :=
    { handle := h
      filepath := filepath
      programName := programName
      lastWriteTimestamp := drv.fileLastWriteTimestamp filepath
      shaderLayout :=
        { attributes := (introspectAttributes (F := F) drv h 0 (drv.activeAttributes h)).2 } }
  have hloc : program.shaderLayout.attributes.map VertexShaderAttribute.location =
      (reportedLocations drv program.handle).map toU8 := by
    show ((introspectAttributes (F := F) drv h 0 (drv.activeAttributes h)).2).map
      VertexShaderAttribute.location = (reportedLocations drv h).map toU8
    rw [introspectAttributes_attributes]
    simp [reportedLocations, List.map_map, Function.comp_def]
  have hint : (∀ l ∈ reportedLocations drv program.handle, 0 ≤ l ∧ l < 256) →
      program.shaderLayout.attributes.map (fun s => (s.location : Int)) =
        reportedLocations drv program.handle := by
    intro hr
    have h1 : program.shaderLayout.attributes.map (fun s => (s.location : Int)) =
        (program.shaderLayout.attributes.map VertexShaderAttribute.location).map
          (fun n : Nat => (n : Int)) := by
      rw [List.map_map]; rfl
    rw [h1, hloc, List.map_map]
    conv_rhs => rw [← List.map_id (reportedLocations drv program.handle)]
    apply List.map_congr_left
    intro l hl
    exact toU8_of_range l (hr l hl).1 (hr l hl).2
  refine ⟨_, program,
    (gl1.emit [.glGetProgramiv h .GL_ACTIVE_ATTRIBUTES]).emit
      (introspectAttributes drv h 0 (drv.activeAttributes h)).1, rfl, ?_, hloc, ?_⟩
  · show ((introspectAttributes (F := F) drv h 0 (drv.activeAttributes h)).2).length = _
    rw [introspectAttributes_attributes]
    simp
  · intro hr
    refine ⟨hint hr, ?_⟩
    intro s hs
    rw [← hint hr]
    exact List.mem_map.2 ⟨s, hs, rfl⟩

/-- C11 (amended), witness: a program loaded under the example driver, which
reports `aPosition` at location 0 and `aTexCoord` at location 1. -/
theorem LoadProgram_shaderLayout_witness :
    ∃ i program gl1,
      LoadProgram exampleDriver exampleGL exampleApp "WATER_SHADER.glsl" "WATER_SHADER" =
        .ok (i, { exampleApp with programs := exampleApp.programs ++ [program] }, gl1) ∧
      program.shaderLayout.attributes.length = (exampleDriver.activeAttributes program.handle).length ∧
      program.shaderLayout.attributes.map VertexShaderAttribute.location =
        (reportedLocations exampleDriver program.handle).map toU8 ∧
      ((∀ l ∈ reportedLocations exampleDriver program.handle, 0 ≤ l ∧ l < 256) →
        program.shaderLayout.attributes.map (fun s => (s.location : Int)) =
          reportedLocations exampleDriver program.handle ∧
        ∀ s ∈ program.shaderLayout.attributes,
          (s.location : Int) ∈ reportedLocations exampleDriver program.handle) :=
  LoadProgram_shaderLayout exampleDriver exampleGL exampleApp "WATER_SHADER.glsl" "WATER_SHADER"
    (by decide)

/-! ## ConfigureFrameBuffer and ConfigureWaterBuffer -/

/-- C12. Whatever the framebuffer held before and whatever the driver answers,
`ConfigureFrameBuffer` leaves the framebuffer with exactly four colour
attachments, which are the four textures the call creates: the first is allocated
as `GL_RGBA8` with `GL_UNSIGNED_BYTE` data, the other three as `GL_RGBA16F` with
`GL_FLOAT` data; its depth handle is a fifth texture, allocated as
`GL_DEPTH_COMPONENT24`; and the new framebuffer object gets these four textures
at the colour attachment points 0 to 3 and the depth texture at the depth
attachment point. `ConfigureWaterBuffer` leaves its framebuffer with exactly one
colour attachment, a `GL_RGBA8` texture, and a depth texture, attached to the new
framebuffer object in the same way, and its out-parameters are that colour handle
and that depth handle. -/
theorem ConfigureFrameBuffer_attachments {F : Type} (drv : Driver) (gl : GLState F)
    (app : App F) (aConfigFB : FrameBuffer) :
    (∃ calls,
      (ConfigureFrameBuffer drv gl app aConfigFB).2.calls = gl.calls ++ calls ∧
      (ConfigureFrameBuffer drv gl app aConfigFB).1.colorAttachment =
        [drv.genName gl.issued, drv.genName (gl.issued + 1), drv.genName (gl.issued + 2),
         drv.genName (gl.issued + 3)] ∧
      (ConfigureFrameBuffer drv gl app aConfigFB).1.colorAttachment.length = 4 ∧
      (ConfigureFrameBuffer drv gl app aConfigFB).1.depthHandle = drv.genName (gl.issued + 4) ∧
      (ConfigureFrameBuffer drv gl app aConfigFB).1.fbHandle = drv.genName (gl.issued + 5) ∧
      textureStorage 0 calls =
        [(drv.genName gl.issued, .GL_RGBA8, .GL_UNSIGNED_BYTE),
         (drv.genName (gl.issued + 1), .GL_RGBA16F, .GL_FLOAT),
         (drv.genName (gl.issued + 2), .GL_RGBA16F, .GL_FLOAT),
         (drv.genName (gl.issued + 3), .GL_RGBA16F, .GL_FLOAT),
         (drv.genName (gl.issued + 4), .GL_DEPTH_COMPONENT24, .GL_FLOAT)] ∧
      framebufferAttachments 0 calls =
        [(drv.genName (gl.issued + 5), GL_COLOR_ATTACHMENT0, drv.genName gl.issued),
         (drv.genName (gl.issued + 5), GL_COLOR_ATTACHMENT0 + 1, drv.genName (gl.issued + 1)),
         (drv.genName (gl.issued + 5), GL_COLOR_ATTACHMENT0 + 2, drv.genName (gl.issued + 2)),
         (drv.genName (gl.issued + 5), GL_COLOR_ATTACHMENT0 + 3, drv.genName (gl.issued + 3)),
         (drv.genName (gl.issued + 5), GL_DEPTH_ATTACHMENT, drv.genName (gl.issued + 4))]) ∧
    (∃ calls,
      (ConfigureWaterBuffer drv gl app aConfigFB).2.2.2.calls = gl.calls ++ calls ∧
      (ConfigureWaterBuffer drv gl app aConfigFB).1.colorAttachment = [drv.genName gl.issued] ∧
      (ConfigureWaterBuffer drv gl app aConfigFB).1.colorAttachment.length = 1 ∧
      (ConfigureWaterBuffer drv gl app aConfigFB).1.depthHandle = drv.genName (gl.issued + 1) ∧
      (ConfigureWaterBuffer drv gl app aConfigFB).1.fbHandle = drv.genName (gl.issued + 2) ∧
      (ConfigureWaterBuffer drv gl app aConfigFB).1.colorAttachment[0]? =
        some (ConfigureWaterBuffer drv gl app aConfigFB).2.1 ∧
      (ConfigureWaterBuffer drv gl app aConfigFB).2.2.1 =
        (ConfigureWaterBuffer drv gl app aConfigFB).1.depthHandle ∧
      textureStorage 0 calls =
        [(drv.genName gl.issued, .GL_RGBA8, .GL_UNSIGNED_BYTE),
         (drv.genName (gl.issued + 1), .GL_DEPTH_COMPONENT24, .GL_FLOAT)] ∧
      framebufferAttachments 0 calls =
        [(drv.genName (gl.issued + 2), GL_COLOR_ATTACHMENT0, drv.genName gl.issued),
         (drv.genName (gl.issued + 2), GL_DEPTH_ATTACHMENT, drv.genName (gl.issued + 1))]) := by
  constructor
  · refine ⟨(ConfigureFrameBuffer drv gl app aConfigFB).2.calls.drop gl.calls.length,
      ?_, rfl, rfl, rfl, rfl, ?_, ?_⟩
    · simp only [ConfigureFrameBuffer, attachAndCheck, FrameBuffer.Clear, CreateTexture,
        GLState.emit, List.append_assoc, ite_self, List.drop_left]
    · simp only [ConfigureFrameBuffer, attachAndCheck, FrameBuffer.Clear, CreateTexture,
        GLState.emit, List.append_assoc, ite_self, List.drop_left]
      rfl
    · simp only [ConfigureFrameBuffer, attachAndCheck, FrameBuffer.Clear, CreateTexture,
        GLState.emit, List.append_assoc, ite_self, List.drop_left]
      rfl
  · refine ⟨(ConfigureWaterBuffer drv gl app aConfigFB).2.2.2.calls.drop gl.calls.length,
      ?_, rfl, rfl, rfl, rfl, rfl, rfl, ?_, ?_⟩
    · simp only [ConfigureWaterBuffer, attachAndCheck, FrameBuffer.Clear, CreateTexture,
        GLState.emit, List.append_assoc, ite_self, List.drop_left]
    · simp only [ConfigureWaterBuffer, attachAndCheck, FrameBuffer.Clear, CreateTexture,
        GLState.emit, List.append_assoc, ite_self, List.drop_left]
      rfl
    · simp only [ConfigureWaterBuffer, attachAndCheck, FrameBuffer.Clear, CreateTexture,
        GLState.emit, List.append_assoc, ite_self, List.drop_left]
      rfl

/-- C13, at the failing input: a driver whose completeness check answers
`GL_FRAMEBUFFER_UNSUPPORTED` for every framebuffer. `ConfigureFrameBuffer` and
`ConfigureWaterBuffer` make the check, write nothing to the log, and return the
same framebuffer and make the same calls as under a driver that answers
`GL_FRAMEBUFFER_COMPLETE`. -/
theorem ConfigureFrameBuffer_incomplete_not_logged :
    incompleteDriver.framebufferStatus
        (ConfigureFrameBuffer incompleteDriver exampleGL exampleApp
          exampleApp.deferredFrameBuffer).1.fbHandle = .GL_FRAMEBUFFER_UNSUPPORTED ∧
    GLCall.glCheckFramebufferStatus .GL_FRAMEBUFFER ∈
      (ConfigureFrameBuffer incompleteDriver exampleGL exampleApp
        exampleApp.deferredFrameBuffer).2.calls ∧
    loggedErrors
      (ConfigureFrameBuffer incompleteDriver exampleGL exampleApp
        exampleApp.deferredFrameBuffer).2.calls = [] ∧
    ConfigureFrameBuffer incompleteDriver exampleGL exampleApp exampleApp.deferredFrameBuffer =
      ConfigureFrameBuffer exampleDriver exampleGL exampleApp exampleApp.deferredFrameBuffer ∧
    GLCall.glCheckFramebufferStatus .GL_FRAMEBUFFER ∈
      (ConfigureWaterBuffer incompleteDriver exampleGL exampleApp
        exampleApp.waterBuffers.fboReflection).2.2.2.calls ∧
    loggedErrors
      (ConfigureWaterBuffer incompleteDriver exampleGL exampleApp
        exampleApp.waterBuffers.fboReflection).2.2.2.calls = [] ∧
    ConfigureWaterBuffer incompleteDriver exampleGL exampleApp
        exampleApp.waterBuffers.fboReflection =
      ConfigureWaterBuffer exampleDriver exampleGL exampleApp
        exampleApp.waterBuffers.fboReflection := by
  refine ⟨rfl, ?_, rfl, rfl, ?_, rfl, rfl⟩
  · simp [ConfigureFrameBuffer, attachAndCheck, FrameBuffer.Clear, CreateTexture,
      GLState.emit, exampleGL]
  · simp [ConfigureWaterBuffer, attachAndCheck, FrameBuffer.Clear, CreateTexture,
      GLState.emit, exampleGL]

end Engine
